import Mathlib

/-!
# rdmahandler: a shallow embedding of `rdma_operations.c` / `rdma_operations.h`

The development follows the two source files:

* bytes, byte order and the packed handshake record `struct cm_con_data_t`;
* the bootstrap channel: its opening `sock_connect` and its exchange `sock_sync_data`;
* the construction `resources_init` / `resources_create` and the work request of `post_send`;
* the queue-pair transitions `modify_qp_to_init`, `modify_qp_to_rtr`, `modify_qp_to_rts`;
* the handshake `connect_qp`;
* the completion poller `poll_completion`;
* the teardown `resources_destroy`.

Calls into the operating system and into the verbs provider are not code of the repository.
Their results are inputs of the model (one field per call site, or a function of the call
index where the call sits in a loop), and the calls the program makes are recorded in a trace.
Machine integers are `Nat` / `Int`; where the C type has a fixed width the width is explicit.
-/

namespace Rdma

/-! ## Bytes and byte order -/

/-- The two values `__BYTE_ORDER` may take in `rdma_operations.h`. -/
inductive byte_order where
  | little_endian
  | big_endian
  deriving DecidableEq, Repr

/-- The `n` low-order bytes of `x`, least significant first. -/
def le_bytes : Nat → Nat → List Nat
  | 0, _ => []
  | n + 1, x => x % 256 :: le_bytes n (x / 256)

/-- The number whose bytes, least significant first, are `bs`. -/
def of_le_bytes : List Nat → Nat
  | [] => 0
  | b :: bs => b + 256 * of_le_bytes bs

/-- The `n` low-order bytes of `x`, most significant first. -/
def be_bytes (n x : Nat) : List Nat := (le_bytes n x).reverse

/-- The number whose bytes, most significant first, are `bs`. -/
def of_be_bytes (bs : List Nat) : Nat := of_le_bytes bs.reverse

/-- An `n`-byte unsigned integer as it lies in the memory of a host. -/
def store (bo : byte_order) (n x : Nat) : List Nat :=
  match bo with
  | .little_endian => le_bytes n x
  | .big_endian => be_bytes n x

/-- The unsigned integer a host reads from the bytes `bs`. -/
def load (bo : byte_order) (bs : List Nat) : Nat :=
  match bo with
  | .little_endian => of_le_bytes bs
  | .big_endian => of_be_bytes bs

/-- The libc byte swap of an `n`-byte unsigned integer (`bswap_16/32/64` of `<byteswap.h>`):
the value with the order of its `n` bytes reversed. -/
def bswap (n x : Nat) : Nat := of_le_bytes (le_bytes n x).reverse

/-- The `bswap_64` of `<byteswap.h>`. -/
def bswap_64 (x : Nat) : Nat := bswap 8 x

/-- The `htonll` of `rdma_operations.h`: `bswap_64` when `__BYTE_ORDER == __LITTLE_ENDIAN`,
the identity when `__BYTE_ORDER == __BIG_ENDIAN`. -/
def htonll (bo : byte_order) (x : Nat) : Nat :=
  match bo with
  | .little_endian => bswap_64 x
  | .big_endian => x

/-- The `ntohll` of `rdma_operations.h`, defined next to `htonll` in the same two branches. -/
def ntohll (bo : byte_order) (x : Nat) : Nat :=
  match bo with
  | .little_endian => bswap_64 x
  | .big_endian => x

/-- The `htonl` of `<arpa/inet.h>`: host to network order on 32 bits. -/
def htonl (bo : byte_order) (x : Nat) : Nat :=
  match bo with
  | .little_endian => bswap 4 x
  | .big_endian => x

/-- The `ntohl` of `<arpa/inet.h>`: network to host order on 32 bits. -/
def ntohl (bo : byte_order) (x : Nat) : Nat :=
  match bo with
  | .little_endian => bswap 4 x
  | .big_endian => x

/-- The `htons` of `<arpa/inet.h>`: host to network order on 16 bits. -/
def htons (bo : byte_order) (x : Nat) : Nat :=
  match bo with
  | .little_endian => bswap 2 x
  | .big_endian => x

/-- The `ntohs` of `<arpa/inet.h>`: network to host order on 16 bits. -/
def ntohs (bo : byte_order) (x : Nat) : Nat :=
  match bo with
  | .little_endian => bswap 2 x
  | .big_endian => x

/-! ## The handshake record -/

/-- The `struct cm_con_data_t` of `rdma_operations.h`: the values of its five fields.
`addr` is a `uint64_t`, `rkey` and `qp_num` are `uint32_t`, `lid` is a `uint16_t` and `gid`
is an array of 16 `uint8_t`. -/
structure cm_con_data_t where
  addr : Nat
  rkey : Nat
  qp_num : Nat
  lid : Nat
  gid : List Nat
  deriving DecidableEq, Repr

/-- The field values fit the C types of `struct cm_con_data_t`. -/
def cm_con_data_t.wf (d : cm_con_data_t) : Prop :=
  d.addr < 2 ^ 64 ∧ d.rkey < 2 ^ 32 ∧ d.qp_num < 2 ^ 32 ∧ d.lid < 2 ^ 16 ∧
    d.gid.length = 16 ∧ ∀ b ∈ d.gid, b < 256

/-- The sizes in bytes of the members of `struct cm_con_data_t`, in declaration order:
`uint64_t addr`, `uint32_t rkey`, `uint32_t qp_num`, `uint16_t lid`, `uint8_t gid[16]`. -/
def cm_con_data_t_members : List Nat := [8, 4, 4, 2, 16]

/-- The `sizeof(struct cm_con_data_t)`: the struct is `__attribute__ ((packed))`, so its size
is the sum of the sizes of its members. -/
def sizeof_cm_con_data_t : Nat := cm_con_data_t_members.sum

/-- The bytes of a `struct cm_con_data_t` object in the memory of a host: the members in
declaration order, without padding (the struct is packed), each integer in host order. -/
def cm_con_data_t.to_mem (bo : byte_order) (d : cm_con_data_t) : List Nat :=
  store bo 8 d.addr ++ store bo 4 d.rkey ++ store bo 4 d.qp_num ++ store bo 2 d.lid ++ d.gid

/-- The `struct cm_con_data_t` object a host sees in the bytes `m`. -/
def cm_con_data_t.of_mem (bo : byte_order) (m : List Nat) : cm_con_data_t :=
  { addr := load bo (m.take 8)
    rkey := load bo ((m.drop 8).take 4)
    qp_num := load bo ((m.drop 12).take 4)
    lid := load bo ((m.drop 16).take 2)
    gid := (m.drop 18).take 16 }

/-- The encoding `connect_qp` applies to the local connection data (lines 716-720):
`htonll` on `addr`, `htonl` on `rkey` and `qp_num`, `htons` on `lid`, `memcpy` of the gid. -/
def encode_con_data (bo : byte_order) (d : cm_con_data_t) : cm_con_data_t :=
  { addr := htonll bo d.addr
    rkey := htonl bo d.rkey
    qp_num := htonl bo d.qp_num
    lid := htons bo d.lid
    gid := d.gid.take 16 }

/-- The decoding `connect_qp` applies to the received record (lines 729-733):
`ntohll` on `addr`, `ntohl` on `rkey` and `qp_num`, `ntohs` on `lid`, `memcpy` of the gid. -/
def decode_con_data (bo : byte_order) (d : cm_con_data_t) : cm_con_data_t :=
  { addr := ntohll bo d.addr
    rkey := ntohl bo d.rkey
    qp_num := ntohl bo d.qp_num
    lid := ntohs bo d.lid
    gid := d.gid.take 16 }

/-! ## The bootstrap channel: `sock_sync_data` -/

/-- What one `read(sock, remote_data, xfer_size)` does: it transfers the bytes `bs` to the
start of the buffer and returns their number, or returns 0 (the peer closed the channel),
or returns -1 (error). -/
inductive read_result where
  | data (bs : List Nat)
  | eof
  | error
  deriving DecidableEq, Repr

/-- The return value of the `read` call. -/
def read_result.ret : read_result → Int
  | .data bs => bs.length
  | .eof => 0
  | .error => -1

/-- The buffer after the `read` call: `read` is always handed the start of the buffer
(`remote_data`, line 142), so the transferred bytes replace its first bytes. -/
def read_result.into (r : read_result) (buf : List Nat) : List Nat :=
  match r with
  | .data bs => bs ++ buf.drop bs.length
  | .eof => buf
  | .error => buf

/-- The behaviour of the socket during one `sock_sync_data`: the return value of the `write`
call and the result of the `k`-th `read` call, for every `k`. -/
structure sock_io where
  write_ret : Int
  reads : Nat → read_result

/-- What `sock_sync_data` leaves behind: its return value, `total_read_bytes`, the number of
`read` calls it made and the contents of `remote_data`. -/
structure sync_result where
  rc : Int
  total_read_bytes : Int
  reads_done : Nat
  remote_data : List Nat
  deriving DecidableEq, Repr

/-- The `while (!rc && total_read_bytes < xfer_size)` loop of `sock_sync_data`
(lines 140-147), entered before the `k`-th read. `none`: the loop has not ended after `fuel`
iterations. -/
def sock_sync_loop (xfer_size : Int) (reads : Nat → read_result) :
    Nat → Nat → Int → Int → List Nat → Option sync_result
  | 0, k, rc, total_read_bytes, remote_data =>
    if rc = 0 ∧ total_read_bytes < xfer_size then none
    else some ⟨rc, total_read_bytes, k, remote_data⟩
  | fuel + 1, k, rc, total_read_bytes, remote_data =>
    if rc = 0 ∧ total_read_bytes < xfer_size then
      let read_bytes := (reads k).ret
      if read_bytes > 0 then
        sock_sync_loop xfer_size reads fuel (k + 1) rc (total_read_bytes + read_bytes)
          ((reads k).into remote_data)
      else
        sock_sync_loop xfer_size reads fuel (k + 1) read_bytes total_read_bytes remote_data
    else some ⟨rc, total_read_bytes, k, remote_data⟩

/-- The function `sock_sync_data` (lines 130-149). `remote_data` is the initial content of the
output buffer. The bytes of `local_data` only go to `write`, whose return value is
`io.write_ret`. -/
def sock_sync_data (fuel : Nat) (io : sock_io) (xfer_size : Int) (remote_data : List Nat) :
    Option sync_result :=
  let rc := io.write_ret
  let rc := if rc < xfer_size then rc else 0
  sock_sync_loop xfer_size io.reads fuel 0 rc 0 remote_data

/-! ## Verbs objects -/

/-- The `enum ibv_qp_state` of `<infiniband/verbs.h>`, restricted to the states the program
names; `RESET` is the value 0 that `memset` leaves in an attribute record. -/
inductive ibv_qp_state where
  | RESET
  | INIT
  | RTR
  | RTS
  deriving DecidableEq, Repr

/-- The `IBV_MTU_256` of `enum ibv_mtu`. -/
def IBV_MTU_256 : Nat := 1

/-- The `IBV_ACCESS_LOCAL_WRITE` of `enum ibv_access_flags`. -/
def IBV_ACCESS_LOCAL_WRITE : Nat := 1
/-- The `IBV_ACCESS_REMOTE_WRITE` of `enum ibv_access_flags`. -/
def IBV_ACCESS_REMOTE_WRITE : Nat := 2
/-- The `IBV_ACCESS_REMOTE_READ` of `enum ibv_access_flags`. -/
def IBV_ACCESS_REMOTE_READ : Nat := 4

/-- The `IBV_QP_STATE` of `enum ibv_qp_attr_mask`. -/
def IBV_QP_STATE : Nat := 2 ^ 0
/-- The `IBV_QP_ACCESS_FLAGS` of `enum ibv_qp_attr_mask`. -/
def IBV_QP_ACCESS_FLAGS : Nat := 2 ^ 3
/-- The `IBV_QP_PKEY_INDEX` of `enum ibv_qp_attr_mask`. -/
def IBV_QP_PKEY_INDEX : Nat := 2 ^ 4
/-- The `IBV_QP_PORT` of `enum ibv_qp_attr_mask`. -/
def IBV_QP_PORT : Nat := 2 ^ 5
/-- The `IBV_QP_AV` of `enum ibv_qp_attr_mask`. -/
def IBV_QP_AV : Nat := 2 ^ 7
/-- The `IBV_QP_PATH_MTU` of `enum ibv_qp_attr_mask`. -/
def IBV_QP_PATH_MTU : Nat := 2 ^ 8
/-- The `IBV_QP_TIMEOUT` of `enum ibv_qp_attr_mask`. -/
def IBV_QP_TIMEOUT : Nat := 2 ^ 9
/-- The `IBV_QP_RETRY_CNT` of `enum ibv_qp_attr_mask`. -/
def IBV_QP_RETRY_CNT : Nat := 2 ^ 10
/-- The `IBV_QP_RNR_RETRY` of `enum ibv_qp_attr_mask`. -/
def IBV_QP_RNR_RETRY : Nat := 2 ^ 11
/-- The `IBV_QP_RQ_PSN` of `enum ibv_qp_attr_mask`. -/
def IBV_QP_RQ_PSN : Nat := 2 ^ 12
/-- The `IBV_QP_MAX_QP_RD_ATOMIC` of `enum ibv_qp_attr_mask`. -/
def IBV_QP_MAX_QP_RD_ATOMIC : Nat := 2 ^ 13
/-- The `IBV_QP_MIN_RNR_TIMER` of `enum ibv_qp_attr_mask`. -/
def IBV_QP_MIN_RNR_TIMER : Nat := 2 ^ 15
/-- The `IBV_QP_SQ_PSN` of `enum ibv_qp_attr_mask`. -/
def IBV_QP_SQ_PSN : Nat := 2 ^ 16
/-- The `IBV_QP_MAX_DEST_RD_ATOMIC` of `enum ibv_qp_attr_mask`. -/
def IBV_QP_MAX_DEST_RD_ATOMIC : Nat := 2 ^ 17
/-- The `IBV_QP_DEST_QPN` of `enum ibv_qp_attr_mask`. -/
def IBV_QP_DEST_QPN : Nat := 2 ^ 20

/-- The `MSG_SIZE` of `rdma_operations.h`. -/
def MSG_SIZE : Nat := 10485760

/-- The `MAX_POLL_CQ_TIMEOUT` of `rdma_operations.h`. -/
def MAX_POLL_CQ_TIMEOUT : Nat := 20000

/-- The conversion of an `int` to `uint8_t`: the value modulo 256. -/
def to_uint8 (x : Int) : Int := x % 256

/-- The `struct ibv_global_route` members the program sets. The declaration is in
`<infiniband/verbs.h>`, not in the repository; `sgid_index` is a `uint8_t` there, so it holds
the assigned `int` converted by `to_uint8`. -/
structure ibv_global_route where
  dgid : List Nat
  flow_label : Nat
  sgid_index : Int
  hop_limit : Nat
  traffic_class : Nat
  deriving DecidableEq, Repr

/-- The `struct ibv_ah_attr` members the program sets. The declaration is in
`<infiniband/verbs.h>`, not in the repository; `port_num` is a `uint8_t` there, so it holds the
assigned `int` converted by `to_uint8`. -/
structure ibv_ah_attr where
  grh : ibv_global_route
  dlid : Nat
  sl : Nat
  src_path_bits : Nat
  is_global : Nat
  port_num : Int
  deriving DecidableEq, Repr

/-- The `struct ibv_qp_attr` members the program sets. The declaration is in
`<infiniband/verbs.h>`, not in the repository; `port_num` is a `uint8_t` there, so it holds the
assigned `int` converted by `to_uint8`. -/
structure ibv_qp_attr where
  qp_state : ibv_qp_state
  path_mtu : Nat
  rq_psn : Nat
  sq_psn : Nat
  dest_qp_num : Nat
  qp_access_flags : Nat
  ah_attr : ibv_ah_attr
  pkey_index : Nat
  max_rd_atomic : Nat
  max_dest_rd_atomic : Nat
  min_rnr_timer : Nat
  port_num : Int
  timeout : Nat
  retry_cnt : Nat
  rnr_retry : Nat
  deriving DecidableEq, Repr

/-- The attribute record after `memset(&attr, 0, sizeof(attr))`. -/
def ibv_qp_attr.zero : ibv_qp_attr :=
  { qp_state := .RESET, path_mtu := 0, rq_psn := 0, sq_psn := 0, dest_qp_num := 0,
    qp_access_flags := 0,
    ah_attr :=
      { grh := { dgid := List.replicate 16 0, flow_label := 0, sgid_index := 0, hop_limit := 0,
                 traffic_class := 0 },
        dlid := 0, sl := 0, src_path_bits := 0, is_global := 0, port_num := 0 },
    pkey_index := 0, max_rd_atomic := 0, max_dest_rd_atomic := 0, min_rnr_timer := 0,
    port_num := 0, timeout := 0, retry_cnt := 0, rnr_retry := 0 }

/-- The `struct ibv_sge`. -/
structure ibv_sge where
  addr : Nat
  length : Nat
  lkey : Nat
  deriving DecidableEq, Repr

/-- The `struct ibv_recv_wr` (its `next` member is `NULL` throughout). -/
structure ibv_recv_wr where
  wr_id : Nat
  sg_list : List ibv_sge
  num_sge : Nat
  deriving DecidableEq, Repr

/-- The `struct config_t` of `rdma_operations.h`; a `NULL` string is `none`. -/
structure config_t where
  dev_name : Option String
  server_name : Option String
  tcp_port : Nat
  ib_port : Int
  gid_idx : Int
  deriving DecidableEq, Repr

/-- The `struct resources` of `rdma_operations.h`, as far as the program reads it. A pointer is
its address, `NULL` being 0. The members the program reads through a pointer are carried next to
it: `qp_num` and `qp_state` are `qp->qp_num` and `qp->state`, `mr_lkey` and `mr_rkey` are
`mr->lkey` and `mr->rkey`. `port_attr_lid` is `port_attr.lid`. -/
structure resources where
  port_attr_lid : Nat
  remote_props : cm_con_data_t
  ib_ctx : Nat
  pd : Nat
  cq : Nat
  qp : Nat
  qp_num : Nat
  qp_state : ibv_qp_state
  mr : Nat
  mr_lkey : Nat
  mr_rkey : Nat
  buf : Nat
  sock : Int
  deriving DecidableEq, Repr

/-- The `IBV_WR_RDMA_WRITE` of `enum ibv_wr_opcode`. -/
def IBV_WR_RDMA_WRITE : Int := 0
/-- The `IBV_WR_SEND` of `enum ibv_wr_opcode`. -/
def IBV_WR_SEND : Int := 2
/-- The `IBV_WR_RDMA_READ` of `enum ibv_wr_opcode`. -/
def IBV_WR_RDMA_READ : Int := 4

/-- The `IBV_SEND_SIGNALED` of `enum ibv_send_flags`. -/
def IBV_SEND_SIGNALED : Nat := 2 ^ 1

/-- The `IBV_QPT_RC` of `enum ibv_qp_type`. -/
def IBV_QPT_RC : Nat := 2

/-- The `struct ibv_send_wr` members the program sets (its `next` member is `NULL`
throughout); `remote_addr` and `rkey` are `wr.rdma.remote_addr` and `wr.rdma.rkey`. -/
structure ibv_send_wr where
  wr_id : Nat
  sg_list : List ibv_sge
  num_sge : Nat
  opcode : Int
  send_flags : Nat
  remote_addr : Nat
  rkey : Nat
  deriving DecidableEq, Repr

/-- The `struct ibv_qp_init_attr` members the program sets. -/
structure ibv_qp_init_attr where
  send_cq : Nat
  recv_cq : Nat
  max_send_wr : Nat
  max_recv_wr : Nat
  max_send_sge : Nat
  max_recv_sge : Nat
  qp_type : Nat
  sq_sig_all : Nat
  deriving DecidableEq, Repr

/-- One call the program makes to the provider, to libc or on the socket, with the value the
call returned (`free` returns none). -/
inductive event where
  | query_gid (ctx : Nat) (port : Int) (index : Int) (ret : Int)
  | sock_sync (sock : Int) (xfer_size : Int) (local_data : List Nat) (ret : Int)
  | modify_qp (qp : Nat) (attr : ibv_qp_attr) (flags : Nat) (ret : Int)
  | post_recv (qp : Nat) (wr : ibv_recv_wr) (ret : Int)
  | destroy_qp (qp : Nat) (ret : Int)
  | dereg_mr (mr : Nat) (ret : Int)
  | free (buf : Nat)
  | destroy_cq (cq : Nat) (ret : Int)
  | dealloc_pd (pd : Nat) (ret : Int)
  | close_device (ctx : Nat) (ret : Int)
  | close (sock : Int) (ret : Int)
  | post_send (qp : Nat) (wr : ibv_send_wr) (ret : Int)
  | getaddrinfo (node : Option String) (port : Int) (ret : Int)
  | socket (ret : Int)
  | connect (sockfd : Int) (ret : Int)
  | bind (sockfd : Int) (ret : Int)
  | listen (sockfd : Int) (ret : Int)
  | accept (sockfd : Int) (ret : Int)
  | freeaddrinfo
  | get_device_list (names : Option (List String))
  | open_device (dev : Nat) (ret : Nat)
  | free_device_list
  | query_port (ctx : Nat) (port : Int) (ret : Int)
  | alloc_pd (ctx : Nat) (ret : Nat)
  | create_cq (ctx : Nat) (cqe : Int) (ret : Nat)
  | malloc (size : Nat) (ret : Nat)
  | reg_mr (pd : Nat) (buf : Nat) (size : Nat) (access : Nat) (ret : Nat)
  | create_qp (pd : Nat) (attr : ibv_qp_init_attr) (ret : Nat)
  deriving DecidableEq, Repr

/-- The provider's `ibv_modify_qp` on the state of the queue pair: a call that returns 0
performs the transition to `attr.qp_state`, a call that fails leaves the state unchanged. -/
def ibv_modify_qp (st : ibv_qp_state) (attr : ibv_qp_attr) (ret : Int) : ibv_qp_state :=
  if ret = 0 then attr.qp_state else st

/-- What a `modify_qp_to_*` function leaves behind: its return value, the state of the queue
pair and the provider call it made. -/
structure modify_result where
  rc : Int
  qp_state : ibv_qp_state
  call : event
  deriving DecidableEq, Repr

/-- The function `modify_qp_to_init` (lines 567-584); `ret` is what `ibv_modify_qp` returns. -/
def modify_qp_to_init (config : config_t) (qp : Nat) (st : ibv_qp_state) (ret : Int) :
    modify_result :=
  let attr : ibv_qp_attr :=
    { ibv_qp_attr.zero with
      qp_state := .INIT
      port_num := to_uint8 config.ib_port
      pkey_index := 0
      qp_access_flags :=
        IBV_ACCESS_LOCAL_WRITE ||| IBV_ACCESS_REMOTE_READ ||| IBV_ACCESS_REMOTE_WRITE }
  let flags := IBV_QP_STATE ||| IBV_QP_PKEY_INDEX ||| IBV_QP_PORT ||| IBV_QP_ACCESS_FLAGS
  let rc := ret
  { rc := rc, qp_state := ibv_modify_qp st attr ret, call := .modify_qp qp attr flags ret }

/-- The attribute record `modify_qp_to_rtr` builds (lines 608-631). -/
def rtr_attr (config : config_t) (remote_qpn dlid : Nat) (dgid : List Nat) : ibv_qp_attr :=
  let attr : ibv_qp_attr :=
    { ibv_qp_attr.zero with
      qp_state := .RTR
      path_mtu := IBV_MTU_256
      dest_qp_num := remote_qpn
      rq_psn := 0
      max_dest_rd_atomic := 1
      min_rnr_timer := 0x12
      ah_attr :=
        { ibv_qp_attr.zero.ah_attr with
          is_global := 0
          dlid := dlid
          sl := 0
          src_path_bits := 0
          port_num := to_uint8 config.ib_port } }
  if config.gid_idx ≥ 0 then
    { attr with
      ah_attr :=
        { attr.ah_attr with
          is_global := 1
          port_num := 1
          grh :=
            { dgid := dgid.take 16
              flow_label := 0
              hop_limit := 1
              sgid_index := to_uint8 config.gid_idx
              traffic_class := 0 } } }
  else attr

/-- The function `modify_qp_to_rtr` (lines 603-640); `ret` is what `ibv_modify_qp` returns. -/
def modify_qp_to_rtr (config : config_t) (qp : Nat) (st : ibv_qp_state)
    (remote_qpn dlid : Nat) (dgid : List Nat) (ret : Int) : modify_result :=
  let attr := rtr_attr config remote_qpn dlid dgid
  let flags := IBV_QP_STATE ||| IBV_QP_AV ||| IBV_QP_PATH_MTU ||| IBV_QP_DEST_QPN |||
    IBV_QP_RQ_PSN ||| IBV_QP_MAX_DEST_RD_ATOMIC ||| IBV_QP_MIN_RNR_TIMER
  let rc := ret
  { rc := rc, qp_state := ibv_modify_qp st attr ret, call := .modify_qp qp attr flags ret }

/-- The function `modify_qp_to_rts` (lines 656-676); `ret` is what `ibv_modify_qp` returns. -/
def modify_qp_to_rts (qp : Nat) (st : ibv_qp_state) (ret : Int) : modify_result :=
  let attr : ibv_qp_attr :=
    { ibv_qp_attr.zero with
      qp_state := .RTS
      timeout := 0x12
      retry_cnt := 6
      rnr_retry := 0
      sq_psn := 0
      max_rd_atomic := 1 }
  let flags := IBV_QP_STATE ||| IBV_QP_TIMEOUT ||| IBV_QP_RETRY_CNT |||
    IBV_QP_RNR_RETRY ||| IBV_QP_SQ_PSN ||| IBV_QP_MAX_QP_RD_ATOMIC
  let rc := ret
  { rc := rc, qp_state := ibv_modify_qp st attr ret, call := .modify_qp qp attr flags ret }

/-- The function `post_receive` (lines 291-315): its return value and the provider call it
makes; `ret` is what `ibv_post_recv` returns. -/
def post_receive (res : resources) (ret : Int) : Int × event :=
  let sge : ibv_sge := { addr := res.buf, length := MSG_SIZE, lkey := res.mr_lkey }
  let rr : ibv_recv_wr := { wr_id := 0, sg_list := [sge], num_sge := 1 }
  let rc := ret
  (rc, .post_recv res.qp rr ret)

/-! ## The handshake: `connect_qp` -/

/-- The results of the calls `connect_qp` makes, in the order of the call sites:
`ibv_query_gid` (return value and the gid it writes), the socket during the first
`sock_sync_data`, the indeterminate initial content of `tmp_con_data`, `ibv_modify_qp` to INIT,
`ibv_post_recv`, `ibv_modify_qp` to RTR, `ibv_modify_qp` to RTS, the socket during the second
`sock_sync_data` and the indeterminate initial content of `temp_char`. -/
structure connect_env where
  query_gid_ret : Int
  query_gid_out : List Nat
  sync1 : sock_io
  tmp_con_data : List Nat
  init_ret : Int
  post_recv_ret : Int
  rtr_ret : Int
  rts_ret : Int
  sync2 : sock_io
  temp_char : List Nat

/-- What `connect_qp` leaves behind: its return value, the resource record and the calls it
made, oldest first. -/
structure connect_result where
  rc : Int
  res : resources
  trace : List event
  deriving DecidableEq, Repr

/-- The record `connect_qp` builds in `local_con_data` (lines 701-720): `my_gid` is the queried
gid when `config.gid_idx >= 0` and sixteen zero bytes otherwise. -/
def local_con_data (bo : byte_order) (config : config_t) (env : connect_env) (res : resources) :
    cm_con_data_t :=
  let my_gid := if config.gid_idx ≥ 0 then env.query_gid_out else List.replicate 16 0
  encode_con_data bo
    { addr := res.buf, rkey := res.mr_rkey, qp_num := res.qp_num, lid := res.port_attr_lid,
      gid := my_gid }

/-- The function `connect_qp` (lines 692-786). `none`: one of its two `sock_sync_data` calls has
not returned after `fuel` iterations of its loop. -/
def connect_qp (bo : byte_order) (config : config_t) (env : connect_env) (fuel : Nat)
    (res : resources) : Option connect_result :=
  let tr : List event :=
    if config.gid_idx ≥ 0 then
      [.query_gid res.ib_ctx config.ib_port config.gid_idx env.query_gid_ret]
    else []
  if config.gid_idx ≥ 0 ∧ env.query_gid_ret ≠ 0 then
    some { rc := env.query_gid_ret, res := res, trace := tr }
  else
    let local_mem := (local_con_data bo config env res).to_mem bo
    match sock_sync_data fuel env.sync1 sizeof_cm_con_data_t env.tmp_con_data with
    | none => none
    | some s1 =>
      let tr := tr ++ [.sock_sync res.sock sizeof_cm_con_data_t local_mem s1.rc]
      if s1.rc < 0 then some { rc := 1, res := res, trace := tr }
      else
        let tmp_con_data := cm_con_data_t.of_mem bo s1.remote_data
        let remote_con_data := decode_con_data bo tmp_con_data
        let res := { res with remote_props := remote_con_data }
        let m1 := modify_qp_to_init config res.qp res.qp_state env.init_ret
        let res := { res with qp_state := m1.qp_state }
        let tr := tr ++ [m1.call]
        if m1.rc ≠ 0 then some { rc := m1.rc, res := res, trace := tr }
        else
          let pr := post_receive res env.post_recv_ret
          let tr := if config.server_name.isSome then tr ++ [pr.2] else tr
          if config.server_name.isSome ∧ pr.1 ≠ 0 then some { rc := pr.1, res := res, trace := tr }
          else
            let m2 := modify_qp_to_rtr config res.qp res.qp_state remote_con_data.qp_num
              remote_con_data.lid remote_con_data.gid env.rtr_ret
            let res := { res with qp_state := m2.qp_state }
            let tr := tr ++ [m2.call]
            if m2.rc ≠ 0 then some { rc := m2.rc, res := res, trace := tr }
            else
              let m3 := modify_qp_to_rts res.qp res.qp_state env.rts_ret
              let res := { res with qp_state := m3.qp_state }
              let tr := tr ++ [m3.call]
              if m3.rc ≠ 0 then some { rc := m3.rc, res := res, trace := tr }
              else
                match sock_sync_data fuel env.sync2 1 env.temp_char with
                | none => none
                | some s2 =>
                  let tr := tr ++ [.sock_sync res.sock 1 [0x51] s2.rc]
                  some { rc := if s2.rc ≠ 0 then 1 else m3.rc, res := res, trace := tr }

/-- A call on the queue pair: `ibv_modify_qp` to a state, or `ibv_post_recv`, with the value
the call returned. -/
inductive qp_call where
  | modify (s : ibv_qp_state) (ret : Int)
  | recv (ret : Int)
  deriving DecidableEq, Repr

/-- The calls on the queue pair in a trace, oldest first. -/
def qp_calls : List event → List qp_call
  | [] => []
  | .modify_qp _ attr _ ret :: es => .modify attr.qp_state ret :: qp_calls es
  | .post_recv _ _ ret :: es => .recv ret :: qp_calls es
  | _ :: es => qp_calls es

/-- The target state and the return value of an `ibv_modify_qp` call. -/
def qp_call.transition : qp_call → Option (ibv_qp_state × Int)
  | .modify s ret => some (s, ret)
  | .recv _ => none

/-- The queue-pair transitions in a trace: the target state and the return value of every
`ibv_modify_qp` call, oldest first. -/
def transitions (tr : List event) : List (ibv_qp_state × Int) :=
  (qp_calls tr).filterMap qp_call.transition

/-- The `sock_sync_data` calls in a trace: transfer size and local bytes, oldest first. -/
def syncs : List event → List (Int × List Nat)
  | [] => []
  | .sock_sync _ xfer_size local_data _ :: es => (xfer_size, local_data) :: syncs es
  | _ :: es => syncs es

/-! ## The completion poller: `poll_completion` -/

/-- The `struct timeval` of `<sys/time.h>`. -/
structure timeval where
  tv_sec : Int
  tv_usec : Int
  deriving DecidableEq, Repr

/-- The `struct ibv_wc` members the program reads. -/
structure ibv_wc where
  status : Nat
  vendor_err : Nat
  deriving DecidableEq, Repr

/-- The `IBV_WC_SUCCESS` of `enum ibv_wc_status`. -/
def IBV_WC_SUCCESS : Nat := 0

/-- The clock reading `(tv_sec * 1000) + (tv_usec / 1000)` stored in an `unsigned long`
(64 bits). -/
def msec (t : timeval) : Nat :=
  ((t.tv_sec * 1000 + Int.tdiv t.tv_usec 1000) % 2 ^ 64).toNat

/-- The `unsigned long` difference `cur_time_msec - start_time_msec`. -/
def elapsed (cur_time_msec start_time_msec : Nat) : Nat :=
  (cur_time_msec + 2 ^ 64 - start_time_msec % 2 ^ 64) % 2 ^ 64

/-- The results of the calls `poll_completion` makes: the `k`-th `ibv_poll_cq` (return value
and the completion it writes to `wc`) and the `k`-th `gettimeofday`, counted from 0. -/
structure poll_env where
  polls : Nat → Int × ibv_wc
  clock : Nat → timeval

/-- What `poll_completion` leaves behind: its return value, the number of `ibv_poll_cq` calls
it made, the last `poll_result`, the last `wc` and the last `cur_time_msec`. -/
structure poll_outcome where
  rc : Int
  polls_done : Nat
  poll_result : Int
  wc : ibv_wc
  cur_time_msec : Nat
  deriving DecidableEq, Repr

/-- The `do ... while` loop of `poll_completion` (lines 182-187), entered for the `k`-th poll.
`none`: the loop has not ended after `fuel` iterations. -/
def poll_loop (env : poll_env) (start_time_msec : Nat) : Nat → Nat → Option (Nat × Nat)
  | 0, _ => none
  | fuel + 1, k =>
    let poll_result := (env.polls k).1
    let cur_time_msec := msec (env.clock (k + 1))
    if poll_result = 0 ∧ elapsed cur_time_msec start_time_msec < MAX_POLL_CQ_TIMEOUT then
      poll_loop env start_time_msec fuel (k + 1)
    else some (k, cur_time_msec)

/-- The function `poll_completion` (lines 171-210). -/
def poll_completion (fuel : Nat) (env : poll_env) : Option poll_outcome :=
  let start_time_msec := msec (env.clock 0)
  match poll_loop env start_time_msec fuel 0 with
  | none => none
  | some (k, cur_time_msec) =>
    let poll_result := (env.polls k).1
    let wc := (env.polls k).2
    let rc : Int :=
      if poll_result < 0 then 1
      else if poll_result = 0 then 1
      else if wc.status ≠ IBV_WC_SUCCESS then 1
      else 0
    some { rc := rc, polls_done := k + 1, poll_result := poll_result, wc := wc,
           cur_time_msec := cur_time_msec }

/-! ## The teardown: `resources_destroy` -/

/-- The return values of the release calls `resources_destroy` makes. -/
structure destroy_env where
  destroy_qp_ret : Int
  dereg_mr_ret : Int
  destroy_cq_ret : Int
  dealloc_pd_ret : Int
  close_device_ret : Int
  close_ret : Int
  deriving DecidableEq, Repr

/-- One `if (handle) if (release(handle)) { rc = 1; }` statement of `resources_destroy`, on
the pair of `rc` and the trace so far: `held` is the outer test, `ret` the value the release
call returns and `call` the record of the call. -/
def release_step (held : Bool) (call : event) (ret : Int) (s : Int × List event) :
    Int × List event :=
  if held then (if ret ≠ 0 then 1 else s.1, s.2 ++ [call]) else s

/-- The statement `if (res->buf) free(res->buf);` of `resources_destroy`. -/
def free_step (buf : Nat) (s : Int × List event) : Int × List event :=
  if buf ≠ 0 then (s.1, s.2 ++ [.free buf]) else s

/-- The function `resources_destroy` (lines 802-844): its return value and the release calls
it made, oldest first. -/
def resources_destroy (env : destroy_env) (res : resources) : Int × List event :=
  let s : Int × List event := (0, [])
  let s := release_step (res.qp ≠ 0) (.destroy_qp res.qp env.destroy_qp_ret) env.destroy_qp_ret s
  let s := release_step (res.mr ≠ 0) (.dereg_mr res.mr env.dereg_mr_ret) env.dereg_mr_ret s
  let s := free_step res.buf s
  let s := release_step (res.cq ≠ 0) (.destroy_cq res.cq env.destroy_cq_ret) env.destroy_cq_ret s
  let s := release_step (res.pd ≠ 0) (.dealloc_pd res.pd env.dealloc_pd_ret) env.dealloc_pd_ret s
  let s := release_step (res.ib_ctx ≠ 0) (.close_device res.ib_ctx env.close_device_ret)
    env.close_device_ret s
  let s := release_step (res.sock ≥ 0) (.close res.sock env.close_ret) env.close_ret s
  s

/-- The release call returned a non-zero value. -/
def event.failed : event → Bool
  | .destroy_qp _ ret => ret ≠ 0
  | .dereg_mr _ ret => ret ≠ 0
  | .destroy_cq _ ret => ret ≠ 0
  | .dealloc_pd _ ret => ret ≠ 0
  | .close_device _ ret => ret ≠ 0
  | .close _ ret => ret ≠ 0
  | _ => false

/-! ## The bootstrap channel: `sock_connect` -/

/-- One address of the list `getaddrinfo` resolves, with the values the socket calls made on
it return: `socket`, then `connect` (and `close` after a failed `connect`) in connect role, or
`bind`, `listen` and `accept` in listen role. -/
structure addr_calls where
  socket_ret : Int
  connect_ret : Int
  close_ret : Int
  bind_ret : Int
  listen_ret : Int
  accept_ret : Int
  deriving DecidableEq, Repr

/-- The results of the calls `sock_connect` makes: `sprintf`, `getaddrinfo` (return value and
the list it stores in `resolved_addr`, the empty list being `NULL`) and the `close` of the
listener. -/
structure sock_env where
  sprintf_ret : Int
  getaddrinfo_ret : Int
  resolved : List addr_calls
  close_listen_ret : Int
  deriving DecidableEq, Repr

/-- The `for` loop of `sock_connect` (lines 63-87) over the resolved addresses still to visit,
on `sockfd`, `listenfd` and the trace so far. A failed `bind` leaves the loop
(`goto sock_connect_exit`); nothing else does. -/
def sock_connect_loop (servername : Option String) :
    List addr_calls → Int → Int → List event → Int × Int × List event
  | [], sockfd, listenfd, tr => (sockfd, listenfd, tr)
  | a :: rest, _, listenfd, tr =>
    let sockfd := a.socket_ret
    let tr := tr ++ [.socket a.socket_ret]
    if sockfd ≥ 0 then
      if servername.isSome then
        let tmp := a.connect_ret
        let tr := tr ++ [.connect sockfd tmp]
        if tmp ≠ 0 then
          sock_connect_loop servername rest (-1) listenfd (tr ++ [.close sockfd a.close_ret])
        else sock_connect_loop servername rest sockfd listenfd tr
      else
        let listenfd := sockfd
        let sockfd := -1
        let tr := tr ++ [.bind listenfd a.bind_ret]
        if a.bind_ret ≠ 0 then (sockfd, listenfd, tr)
        else
          let tr := tr ++ [.listen listenfd a.listen_ret]
          let sockfd := a.accept_ret
          sock_connect_loop servername rest sockfd listenfd (tr ++ [.accept listenfd sockfd])
    else sock_connect_loop servername rest sockfd listenfd tr

/-- The statements after the label `sock_connect_exit` (lines 89-104): the listener is closed
when `listenfd` is non-zero, the address list is freed when it is not `NULL`, and `sockfd` is
returned. -/
def sock_connect_exit (env : sock_env) (resolved : List addr_calls) (sockfd listenfd : Int)
    (tr : List event) : Int × List event :=
  let tr := if listenfd ≠ 0 then tr ++ [.close listenfd env.close_listen_ret] else tr
  let tr := if resolved ≠ [] then tr ++ [.freeaddrinfo] else tr
  (sockfd, tr)

/-- The function `sock_connect` (lines 37-105): its return value and the calls it made, oldest
first. -/
def sock_connect (servername : Option String) (port : Int) (env : sock_env) :
    Int × List event :=
  let sockfd : Int := -1
  let listenfd : Int := 0
  if env.sprintf_ret < 0 then sock_connect_exit env [] sockfd listenfd []
  else
    let sockfd := env.getaddrinfo_ret
    let tr := [event.getaddrinfo servername port env.getaddrinfo_ret]
    if sockfd < 0 then sock_connect_exit env env.resolved sockfd listenfd tr
    else
      let l := sock_connect_loop servername env.resolved sockfd listenfd tr
      sock_connect_exit env env.resolved l.1 l.2.1 l.2.2

/-- The effect of one call on the descriptors that are open: a successful `socket` or `accept`
opens the descriptor it returns, `close` closes its argument. -/
def fd_step (fds : List Int) : event → List Int
  | .socket ret => if ret ≥ 0 then fds ++ [ret] else fds
  | .accept _ ret => if ret ≥ 0 then fds ++ [ret] else fds
  | .close fd _ => fds.erase fd
  | _ => fds

/-- The descriptors opened and not closed by the calls of a trace, in the order of opening. -/
def open_fds (tr : List event) : List Int := tr.foldl fd_step []

/-- The number of connections the calls of a trace establish: `connect` calls that return 0
and `accept` calls that return a descriptor. -/
def connections : List event → Nat
  | [] => 0
  | .connect _ ret :: es => (if ret = 0 then 1 else 0) + connections es
  | .accept _ ret :: es => (if ret ≥ 0 then 1 else 0) + connections es
  | _ :: es => connections es

/-! ## Construction: `resources_init` and `resources_create` -/

/-- The function `resources_init` (lines 331-335): `memset(res, 0, sizeof *res)`, then
`res->sock = -1`. -/
def resources_init (_res : resources) : resources :=
  { port_attr_lid := 0
    remote_props := { addr := 0, rkey := 0, qp_num := 0, lid := 0, gid := List.replicate 16 0 }
    ib_ctx := 0, pd := 0, cq := 0, qp := 0, qp_num := 0, qp_state := .RESET
    mr := 0, mr_lkey := 0, mr_rkey := 0, buf := 0, sock := -1 }

/-- The results of the calls `resources_create` makes, in the order of the call sites: the
socket calls of `sock_connect`, `ibv_get_device_list` (`none` being `NULL`, otherwise the names
of the listed devices), `ibv_open_device`, `ibv_query_port` (return value and the LID it leaves
in `port_attr`), `ibv_alloc_pd`, `ibv_create_cq`, `malloc`, `ibv_reg_mr` (the region and its
keys), `ibv_create_qp` (the queue pair and its number), and the release calls of the exit
path. A pointer result is an address, `NULL` being 0. -/
structure create_env where
  sock : sock_env
  dev_list : Option (List String)
  ib_ctx : Nat
  query_port_ret : Int
  lid : Nat
  pd : Nat
  cq : Nat
  buf : Nat
  mr : Nat
  mr_lkey : Nat
  mr_rkey : Nat
  qp : Nat
  qp_num : Nat
  release : destroy_env
  deriving DecidableEq, Repr

/-- The device selection loop of `resources_create` (lines 407-420) over the names of the
devices still to visit, `i` being the index of the first of them: the device-name slot of the
configuration is filled with the first name visited when it is `NULL`, and the first device
whose name equals it is selected. The result is the device-name slot and the index of the
selected device, if any. -/
def find_device : Option String → List String → Nat → Option String × Option Nat
  | dev_name, [], _ => (dev_name, none)
  | dev_name, n :: rest, i =>
    let dev_name := match dev_name with
      | none => some n
      | some d => some d
    if some n = dev_name then (dev_name, some i) else find_device dev_name rest (i + 1)

/-- The state of `resources_create` at the label `resources_create_exit` and at its return:
`rc`, the record, the configuration, whether `dev_list` is not `NULL`, and the calls made so
far, oldest first. -/
structure create_state where
  rc : Int
  res : resources
  config : config_t
  dev_list : Bool
  trace : List event
  deriving DecidableEq, Repr

/-- The statements of `resources_create` before the label `resources_create_exit`
(lines 365-504): the nine construction steps, left at the first failure. -/
def resources_create_steps (config : config_t) (env : create_env) (res : resources) :
    create_state :=
  let sc := sock_connect config.server_name config.tcp_port env.sock
  let res := { res with sock := sc.1 }
  let tr := sc.2
  if res.sock < 0 then { rc := -1, res := res, config := config, dev_list := false, trace := tr }
  else
    let tr := tr ++ [.get_device_list env.dev_list]
    match env.dev_list with
    | none => { rc := 1, res := res, config := config, dev_list := false, trace := tr }
    | some names =>
      if names.length = 0 then
        { rc := 1, res := res, config := config, dev_list := true, trace := tr }
      else
        let sel := find_device config.dev_name names 0
        let config := { config with dev_name := sel.1 }
        match sel.2 with
        | none => { rc := 1, res := res, config := config, dev_list := true, trace := tr }
        | some ib_dev =>
          let res := { res with ib_ctx := env.ib_ctx }
          let tr := tr ++ [.open_device ib_dev env.ib_ctx]
          if res.ib_ctx = 0 then
            { rc := 1, res := res, config := config, dev_list := true, trace := tr }
          else
            let tr := tr ++ [.free_device_list]
            let res := { res with port_attr_lid := env.lid }
            let tr := tr ++ [.query_port res.ib_ctx config.ib_port env.query_port_ret]
            if env.query_port_ret ≠ 0 then
              { rc := 1, res := res, config := config, dev_list := false, trace := tr }
            else
              let res := { res with pd := env.pd }
              let tr := tr ++ [.alloc_pd res.ib_ctx env.pd]
              if res.pd = 0 then
                { rc := 1, res := res, config := config, dev_list := false, trace := tr }
              else
                let cq_size : Int := 1
                let res := { res with cq := env.cq }
                let tr := tr ++ [.create_cq res.ib_ctx cq_size env.cq]
                if res.cq = 0 then
                  { rc := 1, res := res, config := config, dev_list := false, trace := tr }
                else
                  let size := MSG_SIZE
                  let res := { res with buf := env.buf }
                  let tr := tr ++ [.malloc size env.buf]
                  if res.buf = 0 then
                    { rc := 1, res := res, config := config, dev_list := false, trace := tr }
                  else
                    let mr_flags := IBV_ACCESS_LOCAL_WRITE ||| IBV_ACCESS_REMOTE_READ |||
                      IBV_ACCESS_REMOTE_WRITE
                    let res := { res with mr := env.mr, mr_lkey := env.mr_lkey,
                                          mr_rkey := env.mr_rkey }
                    let tr := tr ++ [.reg_mr res.pd res.buf size mr_flags env.mr]
                    if res.mr = 0 then
                      { rc := 1, res := res, config := config, dev_list := false, trace := tr }
                    else
                      let qp_init_attr : ibv_qp_init_attr :=
                        { qp_type := IBV_QPT_RC, sq_sig_all := 1, send_cq := res.cq,
                          recv_cq := res.cq, max_send_wr := 10, max_recv_wr := 10,
                          max_send_sge := 10, max_recv_sge := 10 }
                      let res := { res with qp := env.qp, qp_num := env.qp_num,
                                            qp_state := .RESET }
                      let tr := tr ++ [.create_qp res.pd qp_init_attr env.qp]
                      if res.qp = 0 then
                        { rc := 1, res := res, config := config, dev_list := false, trace := tr }
                      else
                        { rc := 0, res := res, config := config, dev_list := false, trace := tr }

/-- The statements of `resources_create` after the label `resources_create_exit`
(lines 505-550): when `rc` is non-zero every handle that is set is released and reset, in the
order queue pair, memory region, buffer, completion queue, protection domain, device context,
device list, socket. The return values of the release calls are not used. -/
def resources_create_exit (env : create_env) (s : create_state) : create_state :=
  if s.rc ≠ 0 then
    let res := s.res
    let tr := s.trace
    let tr := if res.qp ≠ 0 then tr ++ [.destroy_qp res.qp env.release.destroy_qp_ret] else tr
    let res := if res.qp ≠ 0 then { res with qp := 0 } else res
    let tr := if res.mr ≠ 0 then tr ++ [.dereg_mr res.mr env.release.dereg_mr_ret] else tr
    let res := if res.mr ≠ 0 then { res with mr := 0 } else res
    let tr := if res.buf ≠ 0 then tr ++ [.free res.buf] else tr
    let res := if res.buf ≠ 0 then { res with buf := 0 } else res
    let tr := if res.cq ≠ 0 then tr ++ [.destroy_cq res.cq env.release.destroy_cq_ret] else tr
    let res := if res.cq ≠ 0 then { res with cq := 0 } else res
    let tr := if res.pd ≠ 0 then tr ++ [.dealloc_pd res.pd env.release.dealloc_pd_ret] else tr
    let res := if res.pd ≠ 0 then { res with pd := 0 } else res
    let tr :=
      if res.ib_ctx ≠ 0 then tr ++ [.close_device res.ib_ctx env.release.close_device_ret]
      else tr
    let res := if res.ib_ctx ≠ 0 then { res with ib_ctx := 0 } else res
    let tr := if s.dev_list then tr ++ [.free_device_list] else tr
    let tr := if res.sock ≥ 0 then tr ++ [.close res.sock env.release.close_ret] else tr
    let res := if res.sock ≥ 0 then { res with sock := -1 } else res
    { s with res := res, dev_list := false, trace := tr }
  else s

/-- The function `resources_create` (lines 353-551). -/
def resources_create (config : config_t) (env : create_env) (res : resources) : create_state :=
  resources_create_exit env (resources_create_steps config env res)

/-- All the pointer handles of the record are `NULL`. -/
def resources.no_handles (res : resources) : Prop :=
  res.ib_ctx = 0 ∧ res.pd = 0 ∧ res.cq = 0 ∧ res.qp = 0 ∧ res.mr = 0 ∧ res.buf = 0

/-! ## Work requests: `post_send` -/

/-- The work request `post_send` builds (lines 235-251): one scatter-gather entry over the
buffer, and the remote address and key of the peer unless the opcode is `IBV_WR_SEND`. -/
def send_wr (res : resources) (opcode : Int) : ibv_send_wr :=
  let sge : ibv_sge := { addr := res.buf, length := MSG_SIZE, lkey := res.mr_lkey }
  let sr : ibv_send_wr :=
    { wr_id := 0, sg_list := [sge], num_sge := 1, opcode := opcode,
      send_flags := IBV_SEND_SIGNALED, remote_addr := 0, rkey := 0 }
  if opcode ≠ IBV_WR_SEND then
    { sr with remote_addr := res.remote_props.addr, rkey := res.remote_props.rkey }
  else sr

/-- The function `post_send` (lines 227-275): its return value and the provider call it makes;
`ret` is what `ibv_post_send` returns. -/
def post_send (res : resources) (opcode : Int) (ret : Int) : Int × event :=
  let sr := send_wr res opcode
  let rc := ret
  (rc, .post_send res.qp sr ret)

/-! ## Example inputs -/

/-- A well-formed connection record. -/
def ex_con_data : cm_con_data_t :=
  { addr := 0x0102030405060708, rkey := 0x11223344, qp_num := 0x55667788, lid := 0x99aa,
    gid := [0xfe, 0x80, 0, 0, 0, 0, 0, 0, 0x02, 0x02, 0xc9, 0xff, 0xfe, 0x12, 0x34, 0x56] }

/-- A client configuration: a server host name is set, port 1, GID index 0. -/
def ex_config : config_t :=
  { dev_name := none, server_name := some "10.0.0.1", tcp_port := 19875, ib_port := 1,
    gid_idx := 0 }

/-- A configuration for an InfiniBand subnet (no GID index) with the port set to 257. -/
def ex_port_257_config : config_t :=
  { dev_name := none, server_name := some "10.0.0.1", tcp_port := 19875, ib_port := 257,
    gid_idx := -1 }

/-- A configuration with the port set to 1 and the GID index set to 256. -/
def ex_gid_256_config : config_t :=
  { dev_name := none, server_name := some "10.0.0.1", tcp_port := 19875, ib_port := 1,
    gid_idx := 256 }

/-- A fully built resource record with the queue pair in RESET. -/
def ex_res : resources :=
  { port_attr_lid := 7
    remote_props := { addr := 0, rkey := 0, qp_num := 0, lid := 0, gid := List.replicate 16 0 }
    ib_ctx := 0x100, pd := 0x200, cq := 0x300, qp := 0x400, qp_num := 0x11, qp_state := .RESET
    mr := 0x500, mr_lkey := 0x21, mr_rkey := 0x22, buf := 0x7f0000001000, sock := 3 }

/-- A socket on which the write transfers all bytes and the first read delivers the whole
wire record of `ex_con_data`. -/
def ex_sync1 : sock_io :=
  { write_ret := 34
    reads := fun _ => .data ((encode_con_data .big_endian ex_con_data).to_mem .big_endian) }

/-- A socket on which the write transfers the one byte and the read delivers one byte. -/
def ex_sync2 : sock_io :=
  { write_ret := 1, reads := fun _ => .data [0x51] }

/-- A run of `connect_qp` in which every call succeeds. -/
def ex_env : connect_env :=
  { query_gid_ret := 0
    query_gid_out := [0xfe, 0x80, 0, 0, 0, 0, 0, 0, 0x02, 0x02, 0xc9, 0xff, 0xfe, 0xab, 0xcd, 0xef]
    sync1 := ex_sync1
    tmp_con_data := List.replicate 34 0
    init_ret := 0, post_recv_ret := 0, rtr_ret := 0, rts_ret := 0
    sync2 := ex_sync2
    temp_char := [0] }

/-- The run of `ex_env`, except that the write of the handshake record transfers only 10 of
its 34 bytes; the reads of the first exchange are then never issued. -/
def ex_short_write_env : connect_env :=
  { ex_env with sync1 := { write_ret := 10, reads := fun _ => .eof } }

/-- The peer sends the two bytes `0x11 0x22`; each read delivers one of them. -/
def ex_split_reads : Nat → read_result
  | 0 => .data [0x11]
  | 1 => .data [0x22]
  | _ => .eof

/-- The peer sends `0x11 0x22` for this exchange and `0x33` for the next one; the first read
delivers one byte and the second read the two others. -/
def ex_merged_reads : Nat → read_result
  | 0 => .data [0x11]
  | 1 => .data [0x22, 0x33]
  | _ => .eof

/-- A socket whose peer has closed the channel: the write transferred the one byte and every
read returns 0. -/
def ex_closed : sock_io :=
  { write_ret := 1, reads := fun _ => .eof }

/-- A completion queue that delivers a successful completion at the third poll. -/
def ex_polls : Nat → Int × ibv_wc
  | 0 => (0, { status := 0, vendor_err := 0 })
  | 1 => (0, { status := 0, vendor_err := 0 })
  | _ => (1, { status := IBV_WC_SUCCESS, vendor_err := 0 })

/-- A clock that reads 100.0 s, then 100.5 s, then 101.25 s from the third reading on. -/
def ex_clock : Nat → timeval
  | 0 => { tv_sec := 100, tv_usec := 0 }
  | 1 => { tv_sec := 100, tv_usec := 500000 }
  | _ => { tv_sec := 101, tv_usec := 250000 }

/-- The completion queue `ex_polls` polled under the clock `ex_clock`. -/
def ex_poll_env : poll_env := { polls := ex_polls, clock := ex_clock }

/-- A completion queue that never delivers, under a clock that jumps by 25 s at the second
reading. -/
def ex_timeout_env : poll_env :=
  { polls := fun _ => (0, { status := 0, vendor_err := 0 })
    clock := fun k => if k = 0 then { tv_sec := 100, tv_usec := 0 }
      else { tv_sec := 125, tv_usec := 0 } }

/-- A resolved address on which every socket call succeeds: `socket` returns descriptor 3 and
`accept` returns descriptor 4. -/
def ex_addr : addr_calls :=
  { socket_ret := 3, connect_ret := 0, close_ret := 0, bind_ret := 0, listen_ret := 0,
    accept_ret := 4 }

/-- A host name that resolves to one address, on which every socket call succeeds. -/
def ex_sock_env : sock_env :=
  { sprintf_ret := 5, getaddrinfo_ret := 0, resolved := [ex_addr], close_listen_ret := 0 }

/-- A host name that resolves to two addresses; on both every socket call succeeds, `socket`
returning descriptor 3 for the first and 4 for the second, `accept` returning 5 and 6. -/
def ex_two_addr_env : sock_env :=
  { sprintf_ret := 5, getaddrinfo_ret := 0
    resolved := [{ ex_addr with accept_ret := 5 },
                 { ex_addr with socket_ret := 4, accept_ret := 6 }]
    close_listen_ret := 0 }

/-- A host name that resolves to two addresses; the connection to the first succeeds on
descriptor 3 and the `socket` call for the second fails. -/
def ex_second_socket_fails_env : sock_env :=
  { sprintf_ret := 5, getaddrinfo_ret := 0
    resolved := [ex_addr, { ex_addr with socket_ret := -1 }]
    close_listen_ret := 0 }

/-- A host name that does not resolve: `getaddrinfo` returns -2 (`EAI_NONAME` in glibc) and
leaves `resolved_addr` at `NULL`. -/
def ex_noname_env : sock_env :=
  { sprintf_ret := 5, getaddrinfo_ret := -2, resolved := [], close_listen_ret := 0 }

/-- A construction in which every call succeeds, on a host with the two devices `mlx5_0` and
`mlx5_1`. -/
def ex_create_env : create_env :=
  { sock := ex_sock_env
    dev_list := some ["mlx5_0", "mlx5_1"]
    ib_ctx := 0x100, query_port_ret := 0, lid := 7, pd := 0x200, cq := 0x300
    buf := 0x7f0000001000, mr := 0x500, mr_lkey := 0x21, mr_rkey := 0x22
    qp := 0x400, qp_num := 0x11
    release := { destroy_qp_ret := 0, dereg_mr_ret := 0, destroy_cq_ret := 0,
                 dealloc_pd_ret := 0, close_device_ret := 0, close_ret := 0 } }

/-- The construction of `ex_create_env`, except that the host name does not resolve. -/
def ex_create_noname_env : create_env :=
  { ex_create_env with sock := ex_noname_env }

/-- The construction of `ex_create_env`, except that `ibv_reg_mr` returns `NULL`. -/
def ex_create_mr_fails_env : create_env :=
  { ex_create_env with mr := 0 }

/-- A peer connection record whose fields fit their C types, stored as remote properties. -/
def ex_connected_res : resources :=
  { ex_res with remote_props := ex_con_data, qp_state := .RTS }

end Rdma

/-! ## Theorems -/

namespace Rdma

theorem le_bytes_length (n x : Nat) : (le_bytes n x).length = n := by
  induction n generalizing x with
  | zero => rfl
  | succ n ih => simp [le_bytes, ih]

theorem le_bytes_lt (n x : Nat) : ∀ b ∈ le_bytes n x, b < 256 := by
  induction n generalizing x with
  | zero => simp [le_bytes]
  | succ n ih =>
    intro b hb
    simp only [le_bytes, List.mem_cons] at hb
    rcases hb with rfl | hb
    · exact Nat.mod_lt _ (by norm_num)
    · exact ih _ b hb

theorem of_le_bytes_le_bytes (n x : Nat) : of_le_bytes (le_bytes n x) = x % 256 ^ n := by
  induction n generalizing x with
  | zero => simp [le_bytes, of_le_bytes, Nat.mod_one]
  | succ n ih =>
    simp only [le_bytes, of_le_bytes, ih]
    rw [pow_succ, Nat.mul_comm (256 ^ n) 256, Nat.mod_mul]

theorem le_bytes_of_le_bytes (bs : List Nat) (h : ∀ b ∈ bs, b < 256) :
    le_bytes bs.length (of_le_bytes bs) = bs := by
  induction bs with
  | nil => rfl
  | cons b bs ih =>
    have hb : b < 256 := h b (List.mem_cons_self _ _)
    have hbs : ∀ c ∈ bs, c < 256 := fun c hc => h c (List.mem_cons_of_mem _ hc)
    simp only [List.length_cons, le_bytes, of_le_bytes]
    have h1 : (b + 256 * of_le_bytes bs) % 256 = b := by omega
    have h2 : (b + 256 * of_le_bytes bs) / 256 = of_le_bytes bs := by omega
    rw [h1, h2, ih hbs]

theorem be_bytes_length (n x : Nat) : (be_bytes n x).length = n := by
  simp [be_bytes, le_bytes_length]

/-- Storing the byte swap of `x` least significant byte first gives the bytes of `x` most
significant first. -/
theorem le_bytes_bswap (n x : Nat) : le_bytes n (bswap n x) = be_bytes n x := by
  have h := le_bytes_of_le_bytes (le_bytes n x).reverse
    (fun b hb => le_bytes_lt n x b (List.mem_reverse.mp hb))
  simpa [bswap, be_bytes, le_bytes_length] using h

theorem bswap_bswap (n x : Nat) (hx : x < 256 ^ n) : bswap n (bswap n x) = x := by
  have h : le_bytes n (bswap n x) = (le_bytes n x).reverse := le_bytes_bswap n x
  unfold bswap at h ⊢
  rw [h, List.reverse_reverse, of_le_bytes_le_bytes, Nat.mod_eq_of_lt hx]

theorem of_mem_append (bo : byte_order) (a b c d e : List Nat) (ha : a.length = 8)
    (hb : b.length = 4) (hc : c.length = 4) (hd : d.length = 2) (he : e.length = 16) :
    cm_con_data_t.of_mem bo (a ++ b ++ c ++ d ++ e) =
      { addr := load bo a, rkey := load bo b, qp_num := load bo c, lid := load bo d, gid := e } := by
  have h1 : List.drop 12 a = [] := List.drop_eq_nil_of_le (by omega)
  have h2 : List.drop 16 a = [] := List.drop_eq_nil_of_le (by omega)
  have h3 : List.drop 18 a = [] := List.drop_eq_nil_of_le (by omega)
  have h4 : List.drop 8 b = [] := List.drop_eq_nil_of_le (by omega)
  have h5 : List.drop 10 b = [] := List.drop_eq_nil_of_le (by omega)
  have h6 : List.drop 6 c = [] := List.drop_eq_nil_of_le (by omega)
  have h7 : List.take 16 e = e := List.take_of_length_le (by omega)
  simp [cm_con_data_t.of_mem, List.take_append_eq_append_take, List.drop_append_eq_append_drop,
    ha, hb, hc, hd, he, h1, h2, h3, h4, h5, h6, h7]

/-- On either host, the memory image of the encoded record is the big-endian wire form. -/
theorem to_mem_encode (bo : byte_order) (d : cm_con_data_t) :
    (encode_con_data bo d).to_mem bo =
      be_bytes 8 d.addr ++ be_bytes 4 d.rkey ++ be_bytes 4 d.qp_num ++ be_bytes 2 d.lid ++
        d.gid.take 16 := by
  cases bo
  · simp [cm_con_data_t.to_mem, encode_con_data, store, htonll, htonl, htons, bswap_64,
      le_bytes_bswap]
  · simp [cm_con_data_t.to_mem, encode_con_data, store, htonll, htonl, htons]

/-- On either host, loading big-endian bytes and converting to host order gives the value. -/
theorem ntoh_load_be_bytes (bo : byte_order) (n x : Nat) (hx : x < 256 ^ n) :
    (match bo with
      | .little_endian => bswap n (load bo (be_bytes n x))
      | .big_endian => load bo (be_bytes n x)) = x := by
  cases bo
  · simp only [load, be_bytes]
    have h : of_le_bytes (le_bytes n x).reverse = bswap n x := rfl
    rw [h, bswap_bswap n x hx]
  · simp only [load, of_be_bytes, be_bytes, List.reverse_reverse, of_le_bytes_le_bytes,
      Nat.mod_eq_of_lt hx]

theorem ntohll_htonll (bo : byte_order) (x : Nat) (hx : x < 2 ^ 64) :
    ntohll bo (htonll bo x) = x := by
  cases bo
  · exact bswap_bswap 8 x (by norm_num at hx ⊢; exact hx)
  · rfl

theorem ntohl_htonl (bo : byte_order) (x : Nat) (hx : x < 2 ^ 32) :
    ntohl bo (htonl bo x) = x := by
  cases bo
  · exact bswap_bswap 4 x (by norm_num at hx ⊢; exact hx)
  · rfl

theorem ntohs_htons (bo : byte_order) (x : Nat) (hx : x < 2 ^ 16) :
    ntohs bo (htons bo x) = x := by
  cases bo
  · exact bswap_bswap 2 x (by norm_num at hx ⊢; exact hx)
  · rfl

theorem ntohll_load (bo : byte_order) (x : Nat) (hx : x < 2 ^ 64) :
    ntohll bo (load bo (be_bytes 8 x)) = x := by
  have h := ntoh_load_be_bytes bo 8 x (by norm_num at hx ⊢; exact hx)
  cases bo <;> exact h

theorem ntohl_load (bo : byte_order) (x : Nat) (hx : x < 2 ^ 32) :
    ntohl bo (load bo (be_bytes 4 x)) = x := by
  have h := ntoh_load_be_bytes bo 4 x (by norm_num at hx ⊢; exact hx)
  cases bo <;> exact h

theorem ntohs_load (bo : byte_order) (x : Nat) (hx : x < 2 ^ 16) :
    ntohs bo (load bo (be_bytes 2 x)) = x := by
  have h := ntoh_load_be_bytes bo 2 x (by norm_num at hx ⊢; exact hx)
  cases bo <;> exact h

/-- C1: for every connection record whose fields fit their C types, decoding as `connect_qp`
does what `connect_qp` encodes gives back every field, with the little-endian and with the
big-endian definition of `htonll`/`ntohll`; and this also holds through the 34 bytes of the
record in memory, whatever the byte orders of the encoding and of the decoding host. -/
theorem decode_encode_con_data (d : cm_con_data_t) (hd : d.wf) :
    (∀ bo, decode_con_data bo (encode_con_data bo d) = d) ∧
    (∀ bo_a bo_b,
      decode_con_data bo_b (cm_con_data_t.of_mem bo_b ((encode_con_data bo_a d).to_mem bo_a))
        = d) := by
  obtain ⟨h1, h2, h3, h4, h5, _⟩ := hd
  have hg : d.gid.take 16 = d.gid := List.take_of_length_le (by omega)
  constructor
  · intro bo
    cases d
    simp only [decode_con_data, encode_con_data] at *
    simp only [hg, cm_con_data_t.mk.injEq, and_true]
    exact ⟨ntohll_htonll _ _ h1, ntohl_htonl _ _ h2, ntohl_htonl _ _ h3, ntohs_htons _ _ h4⟩
  · intro bo_a bo_b
    rw [to_mem_encode, hg,
      of_mem_append bo_b _ _ _ _ _ (be_bytes_length _ _) (be_bytes_length _ _)
        (be_bytes_length _ _) (be_bytes_length _ _) h5]
    cases d
    simp only [decode_con_data] at *
    simp only [hg, cm_con_data_t.mk.injEq, and_true]
    exact ⟨ntohll_load _ _ h1, ntohl_load _ _ h2, ntohl_load _ _ h3, ntohs_load _ _ h4⟩

theorem decode_encode_con_data_witness :
    ex_con_data.wf ∧
    (∀ bo, decode_con_data bo (encode_con_data bo ex_con_data) = ex_con_data) ∧
    (∀ bo_a bo_b,
      decode_con_data bo_b
        (cm_con_data_t.of_mem bo_b ((encode_con_data bo_a ex_con_data).to_mem bo_a))
        = ex_con_data) :=
  have h : ex_con_data.wf := by
    refine ⟨by decide, by decide, by decide, by decide, by decide, by decide⟩
  ⟨h, decode_encode_con_data ex_con_data h⟩

theorem syncs_append (a b : List event) : syncs (a ++ b) = syncs a ++ syncs b := by
  induction a with
  | nil => rfl
  | cons e es ih => cases e <;> simp [syncs, ih]

theorem qp_calls_append (a b : List event) : qp_calls (a ++ b) = qp_calls a ++ qp_calls b := by
  induction a with
  | nil => rfl
  | cons e es ih => cases e <;> simp [qp_calls, ih]

theorem rtr_attr_qp_state (config : config_t) (remote_qpn dlid : Nat) (dgid : List Nat) :
    (rtr_attr config remote_qpn dlid dgid).qp_state = .RTR := by
  unfold rtr_attr
  split <;> rfl

/-- The exits of `connect_qp`: for a run that returns, the return value, the state of the
queue pair, the `sock_sync_data` calls and the calls on the queue pair. -/
theorem connect_qp_shape (bo : byte_order) (config : config_t) (env : connect_env) (fuel : Nat)
    (res : resources) (r : connect_result) (h : connect_qp bo config env fuel res = some r) :
    (config.gid_idx ≥ 0 ∧ env.query_gid_ret ≠ 0 ∧ r.rc = env.query_gid_ret ∧
        r.res.qp_state = res.qp_state ∧ syncs r.trace = [] ∧ qp_calls r.trace = []) ∨
    (∃ s1, sock_sync_data fuel env.sync1 34 env.tmp_con_data = some s1 ∧
      (syncs r.trace).head? = some (34, (local_con_data bo config env res).to_mem bo) ∧
      ((s1.rc < 0 ∧ r.rc = 1 ∧ r.res.qp_state = res.qp_state ∧ (syncs r.trace).length = 1 ∧
          qp_calls r.trace = []) ∨
       (¬ s1.rc < 0 ∧ env.init_ret ≠ 0 ∧ r.rc = env.init_ret ∧ r.res.qp_state = res.qp_state ∧
          (syncs r.trace).length = 1 ∧ qp_calls r.trace = [.modify .INIT env.init_ret]) ∨
       (¬ s1.rc < 0 ∧ env.init_ret = 0 ∧ config.server_name.isSome ∧ env.post_recv_ret ≠ 0 ∧
          r.rc = env.post_recv_ret ∧ r.res.qp_state = .INIT ∧ (syncs r.trace).length = 1 ∧
          qp_calls r.trace = [.modify .INIT 0, .recv env.post_recv_ret]) ∨
       (¬ s1.rc < 0 ∧ env.init_ret = 0 ∧ env.rtr_ret ≠ 0 ∧ r.rc = env.rtr_ret ∧ r.res.qp_state = .INIT ∧
          (syncs r.trace).length = 1 ∧
          qp_calls r.trace = .modify .INIT 0 ::
            ((if config.server_name.isSome then [.recv 0] else []) ++
              [.modify .RTR env.rtr_ret])) ∨
       (¬ s1.rc < 0 ∧ env.init_ret = 0 ∧ env.rtr_ret = 0 ∧ env.rts_ret ≠ 0 ∧ r.rc = env.rts_ret ∧ r.res.qp_state = .RTR ∧
          (syncs r.trace).length = 1 ∧
          qp_calls r.trace = .modify .INIT 0 ::
            ((if config.server_name.isSome then [.recv 0] else []) ++
              [.modify .RTR 0, .modify .RTS env.rts_ret])) ∨
       (∃ s2, sock_sync_data fuel env.sync2 1 env.temp_char = some s2 ∧ ¬ s1.rc < 0 ∧
          env.init_ret = 0 ∧ env.rtr_ret = 0 ∧ env.rts_ret = 0 ∧
          r.rc = (if s2.rc ≠ 0 then 1 else 0) ∧ r.res.qp_state = .RTS ∧
          (syncs r.trace).map (·.1) = [34, 1] ∧
          qp_calls r.trace = .modify .INIT 0 ::
            ((if config.server_name.isSome then [.recv 0] else []) ++
              [.modify .RTR 0, .modify .RTS 0])))) := by
  have hsz : (sizeof_cm_con_data_t : Int) = 34 := by decide
  unfold connect_qp at h
  simp only [hsz] at h
  by_cases hg : config.gid_idx ≥ 0 ∧ env.query_gid_ret ≠ 0
  · left
    rw [if_pos hg] at h
    cases h
    simp [hg.1, hg.2, syncs, qp_calls]
  · right
    rw [if_neg hg] at h
    cases hs1 : sock_sync_data fuel env.sync1 34 env.tmp_con_data with
    | none => simp [hs1] at h
    | some s1 =>
      refine ⟨s1, rfl, ?_⟩
      simp only [hs1, modify_qp_to_init, modify_qp_to_rtr, modify_qp_to_rts, post_receive,
        ibv_modify_qp, rtr_attr_qp_state] at h
      by_cases h1 : s1.rc < 0
      · rw [if_pos h1] at h
        cases h
        by_cases hidx : config.gid_idx ≥ 0 <;> simp [syncs, qp_calls, hidx, h1]
      rw [if_neg h1] at h
      by_cases h2 : env.init_ret = 0
      swap
      · rw [if_pos h2] at h
        cases h
        by_cases hidx : config.gid_idx ≥ 0 <;> simp [syncs, qp_calls, hidx, h1, h2]
      rw [if_neg (not_not.mpr h2)] at h
      by_cases h3 : config.server_name.isSome = true ∧ env.post_recv_ret ≠ 0
      · rw [if_pos h3] at h
        cases h
        by_cases hidx : config.gid_idx ≥ 0 <;> simp [syncs, qp_calls, hidx, h1, h2, h3.1, h3.2]
      rw [if_neg h3] at h
      have h3' : (if config.server_name.isSome = true then [qp_call.recv env.post_recv_ret]
          else []) = (if config.server_name.isSome = true then [qp_call.recv 0] else []) := by
        by_cases hsrv : config.server_name.isSome = true
        · have : env.post_recv_ret = 0 := by
            by_contra hne
            exact h3 ⟨hsrv, hne⟩
          simp [this]
        · simp [hsrv]
      by_cases h4 : env.rtr_ret = 0
      swap
      · rw [if_pos h4] at h
        cases h
        by_cases hidx : config.gid_idx ≥ 0 <;>
          by_cases hsrv : config.server_name.isSome = true <;>
          simp [hsrv] at h3' <;>
          simp [syncs, qp_calls, rtr_attr_qp_state, hidx, hsrv, h1, h2, h3', h4]
      rw [if_neg (not_not.mpr h4)] at h
      by_cases h5 : env.rts_ret = 0
      swap
      · rw [if_pos h5] at h
        cases h
        by_cases hidx : config.gid_idx ≥ 0 <;>
          by_cases hsrv : config.server_name.isSome = true <;>
          simp [hsrv] at h3' <;>
          simp [syncs, qp_calls, rtr_attr_qp_state, hidx, hsrv, h1, h2, h3', h4, h5]
      rw [if_neg (not_not.mpr h5)] at h
      cases hs2 : sock_sync_data fuel env.sync2 1 env.temp_char with
      | none => simp [hs2] at h
      | some s2 =>
        simp only [hs2, Option.some.injEq] at h
        subst h
        by_cases hidx : config.gid_idx ≥ 0 <;>
          by_cases hsrv : config.server_name.isSome = true <;>
          simp [hsrv] at h3' <;>
          simp [syncs, qp_calls, rtr_attr_qp_state, hidx, hsrv, h1, h2, h3', h4, h5]

theorem sizeof_cm_con_data_t_eq : sizeof_cm_con_data_t = 34 := by decide

/-- The first `sock_sync_data` call of a returned run of `connect_qp`, when there is one,
carries the size 34 and the memory image of `local_con_data`. -/
theorem connect_qp_first_sync (bo : byte_order) (config : config_t) (env : connect_env)
    (fuel : Nat) (res : resources) (r : connect_result)
    (h : connect_qp bo config env fuel res = some r) :
    ∀ s ∈ (syncs r.trace).head?, s = (34, (local_con_data bo config env res).to_mem bo) := by
  intro s hs
  rcases connect_qp_shape bo config env fuel res r h with h0 | ⟨s1, _, h1, _⟩
  · simp [h0.2.2.2.2.1] at hs
  · rw [h1] at hs
    simpa using hs.symm

/-- C2 (as stated, refuted): the transfer size of the first exchange of a run of `connect_qp` in
which every call succeeds is 34, not 30, and `sizeof(struct cm_con_data_t)` is not 30. -/
theorem handshake_record_size_not_30 :
    sizeof_cm_con_data_t ≠ 30 ∧
    ¬ (∀ (bo : byte_order) (config : config_t) (env : connect_env) (fuel : Nat)
        (res : resources) (r : connect_result),
        connect_qp bo config env fuel res = some r →
        ∀ s ∈ (syncs r.trace).head?, s.1 = 30) := by
  refine ⟨by decide, fun hall => ?_⟩
  have h := hall .little_endian ex_config ex_env 1 ex_res _ rfl
  revert h
  decide

/-- C2 (amended): the handshake record `connect_qp` exchanges in its first sync call is exactly
34 bytes long: `sizeof(struct cm_con_data_t)` is 8 + 4 + 4 + 2 + 16 = 34, this is the transfer
size of the first `sock_sync_data` call of every run, and the memory image of a record with a
16-byte gid has 34 bytes. -/
theorem handshake_record_size (bo : byte_order) (config : config_t) (env : connect_env)
    (fuel : Nat) (res : resources) (r : connect_result)
    (h : connect_qp bo config env fuel res = some r) :
    sizeof_cm_con_data_t = 34 ∧
    (∀ s ∈ (syncs r.trace).head?, s.1 = 34) ∧
    (∀ d : cm_con_data_t, d.gid.length = 16 → (d.to_mem bo).length = sizeof_cm_con_data_t) := by
  refine ⟨by decide, fun s hs => ?_, fun d hd => ?_⟩
  · rw [connect_qp_first_sync bo config env fuel res r h s hs]
  · cases bo <;>
      simp [cm_con_data_t.to_mem, store, be_bytes, le_bytes_length, hd, sizeof_cm_con_data_t_eq]

theorem handshake_record_size_witness :
    (connect_qp .little_endian ex_config ex_env 1 ex_res).isSome = true ∧
    sizeof_cm_con_data_t = 34 :=
  ⟨by decide,
    (handshake_record_size .little_endian ex_config ex_env 1 ex_res
      ((connect_qp .little_endian ex_config ex_env 1 ex_res).get (by decide))
      (by simp)).1⟩

/-- C3: on a host of either byte order, the bytes `connect_qp` hands to the first sync are the
buffer address as 8 bytes most significant first, the rkey as 4, the qp_num as 4 and the lid as
2 bytes most significant first, then the 16 gid bytes: the queried gid when the GID index is
non-negative, sixteen zero bytes otherwise; they are 34 bytes, with no padding. -/
theorem handshake_record_bytes (bo : byte_order) (config : config_t) (env : connect_env)
    (res : resources) (hgid : env.query_gid_out.length = 16) :
    (local_con_data bo config env res).to_mem bo =
      be_bytes 8 res.buf ++ be_bytes 4 res.mr_rkey ++ be_bytes 4 res.qp_num ++
        be_bytes 2 res.port_attr_lid ++
        (if config.gid_idx ≥ 0 then env.query_gid_out else List.replicate 16 0) ∧
    ((local_con_data bo config env res).to_mem bo).length = 34 ∧
    ∀ (fuel : Nat) (r : connect_result), connect_qp bo config env fuel res = some r →
      ∀ s ∈ (syncs r.trace).head?, s =
        (34, be_bytes 8 res.buf ++ be_bytes 4 res.mr_rkey ++ be_bytes 4 res.qp_num ++
          be_bytes 2 res.port_attr_lid ++
          (if config.gid_idx ≥ 0 then env.query_gid_out else List.replicate 16 0)) := by
  have hmem : (local_con_data bo config env res).to_mem bo =
      be_bytes 8 res.buf ++ be_bytes 4 res.mr_rkey ++ be_bytes 4 res.qp_num ++
        be_bytes 2 res.port_attr_lid ++
        (if config.gid_idx ≥ 0 then env.query_gid_out else List.replicate 16 0) := by
    unfold local_con_data
    rw [to_mem_encode]
    split
    · simp [List.take_of_length_le (Nat.le_of_eq hgid)]
    · simp
  refine ⟨hmem, ?_, fun fuel r h s hs => ?_⟩
  · rw [hmem]
    split <;> simp [be_bytes_length, hgid]
  · rw [connect_qp_first_sync bo config env fuel res r h s hs, hmem]

theorem handshake_record_bytes_witness :
    (local_con_data .little_endian ex_config ex_env ex_res).to_mem .little_endian =
      [0, 0, 0x7f, 0, 0, 0, 0x10, 0, 0, 0, 0, 0x22, 0, 0, 0, 0x11, 0, 7,
        0xfe, 0x80, 0, 0, 0, 0, 0, 0, 0x02, 0x02, 0xc9, 0xff, 0xfe, 0xab, 0xcd, 0xef] ∧
    ((local_con_data .little_endian ex_config ex_env ex_res).to_mem .little_endian).length
      = 34 :=
  have h := handshake_record_bytes .little_endian ex_config ex_env ex_res (by decide)
  ⟨by rw [h.1]; decide, h.2.1⟩

/-- C4 (evaluation at the failing input): the peer sends `0x11 0x22` and each read delivers one
byte; `sock_sync_data` returns 0 with `remote_data` holding `0x22` and the initial second byte,
not `0x11 0x22`. When the second read also delivers the first byte of the next exchange,
`sock_sync_data` returns 0 after consuming 3 bytes, with `remote_data` holding `0x22 0x33`. -/
theorem sock_sync_data_split_reads :
    sock_sync_data 2 { write_ret := 2, reads := ex_split_reads } 2 [0, 0] =
      some { rc := 0, total_read_bytes := 2, reads_done := 2, remote_data := [0x22, 0] } ∧
    sock_sync_data 2 { write_ret := 2, reads := ex_merged_reads } 2 [0, 0] =
      some { rc := 0, total_read_bytes := 3, reads_done := 2, remote_data := [0x22, 0x33] } := by
  constructor <;> rfl

theorem sock_sync_loop_closed (fuel k : Nat) :
    sock_sync_loop 1 ex_closed.reads fuel k 0 0 [0] = none := by
  induction fuel generalizing k with
  | zero => rfl
  | succ fuel ih =>
    unfold sock_sync_loop
    simp only [ex_closed, read_result.ret]
    simpa [ex_closed] using ih (k + 1)

/-- C5 (evaluation at the failing input): the write transferred the one byte and every read
returns 0 because the peer closed the channel; `sock_sync_data` does not return, whatever the
number of loop iterations it is given. -/
theorem sock_sync_data_peer_closed (fuel : Nat) :
    sock_sync_data fuel ex_closed 1 [0] = none := by
  have h := sock_sync_loop_closed fuel 0
  simpa [sock_sync_data, ex_closed] using h

/-- C6 (evaluation at the failing input): the write of the handshake record transfers 10 of
its 34 bytes; `sock_sync_data` returns 10, and `connect_qp` goes on to issue the three
queue-pair transitions and returns 0 with the queue pair in RTS. -/
theorem connect_qp_short_write :
    sock_sync_data 1 ex_short_write_env.sync1 34 ex_short_write_env.tmp_con_data =
      some { rc := 10, total_read_bytes := 0, reads_done := 0,
             remote_data := List.replicate 34 0 } ∧
    (connect_qp .little_endian ex_config ex_short_write_env 1 ex_res).map
      (fun r => (r.rc, r.res.qp_state, qp_calls r.trace)) =
      some (0, .RTS, [.modify .INIT 0, .recv 0, .modify .RTR 0, .modify .RTS 0]) := by
  constructor <;> rfl

/-- C7: starting from RESET, in every run of `connect_qp` that returns, the queue pair is in RTS
if and only if the transitions issued are exactly INIT, RTR, RTS in that order, each returning
0; the transitions issued are an initial part of INIT, RTR, RTS, each at most once; every
transition but the last one issued returned 0, so none follows a failing one; and if one failed
the return value is non-zero. Moreover, once the first exchange has returned, a failing
transition makes `connect_qp` return, with a non-zero value. -/
theorem connect_qp_rts_iff (bo : byte_order) (config : config_t) (env : connect_env)
    (fuel : Nat) (res : resources) (hst : res.qp_state = .RESET) :
    (∀ r, connect_qp bo config env fuel res = some r →
      (r.res.qp_state = .RTS ↔ transitions r.trace = [(.INIT, 0), (.RTR, 0), (.RTS, 0)]) ∧
      transitions r.trace <+:
        [(.INIT, env.init_ret), (.RTR, env.rtr_ret), (.RTS, env.rts_ret)] ∧
      (∀ t ∈ (transitions r.trace).dropLast, t.2 = 0) ∧
      ((∃ t ∈ transitions r.trace, t.2 ≠ 0) → r.rc ≠ 0)) ∧
    (sock_sync_data fuel env.sync1 34 env.tmp_con_data ≠ none →
      (env.init_ret ≠ 0 ∨ env.rtr_ret ≠ 0 ∨ env.rts_ret ≠ 0) →
      ∃ r, connect_qp bo config env fuel res = some r ∧ r.rc ≠ 0) := by
  constructor
  · intro r h
    rcases connect_qp_shape bo config env fuel res r h with
      ⟨_, _, _, hs, _, hq⟩ | ⟨s1, _, _, hc⟩
    · simp [transitions, hq, hs, hst]
    · rcases hc with ⟨_, _, hs, _, hq⟩ | ⟨_, h2, hrc, hs, _, hq⟩ |
        ⟨_, h2, _, h3, hrc, hs, _, hq⟩ | ⟨_, h2, h4, hrc, hs, _, hq⟩ |
        ⟨_, h2, h4, h5, hrc, hs, _, hq⟩ | ⟨s2, _, _, h2, h4, h5, hrc, hs, _, hq⟩
      · simp [transitions, hq, hs, hst]
      · simp [transitions, hq, hs, hst, qp_call.transition, h2, hrc]
      · simp [transitions, hq, hs, qp_call.transition, h2, h3, hrc]
      · by_cases hsrv : config.server_name.isSome = true <;>
          simp [transitions, hq, hs, qp_call.transition, h2, h4, hrc, hsrv]
      · by_cases hsrv : config.server_name.isSome = true <;>
          simp [transitions, hq, hs, qp_call.transition, h2, h4, h5, hrc, hsrv]
      · by_cases hsrv : config.server_name.isSome = true <;>
          simp [transitions, hq, hs, qp_call.transition, h2, h4, h5, hsrv]
  · intro hs1 hfail
    have hsz : (sizeof_cm_con_data_t : Int) = 34 := by decide
    unfold connect_qp
    simp only [hsz]
    by_cases hg : config.gid_idx ≥ 0 ∧ env.query_gid_ret ≠ 0
    · rw [if_pos hg]
      exact ⟨_, rfl, hg.2⟩
    rw [if_neg hg]
    cases hs : sock_sync_data fuel env.sync1 34 env.tmp_con_data with
    | none => exact absurd hs hs1
    | some s1 =>
      simp only [modify_qp_to_init, modify_qp_to_rtr, modify_qp_to_rts, post_receive]
      by_cases h1 : s1.rc < 0
      · rw [if_pos h1]
        exact ⟨_, rfl, one_ne_zero⟩
      rw [if_neg h1]
      by_cases h2 : env.init_ret = 0
      swap
      · rw [if_pos h2]
        exact ⟨_, rfl, h2⟩
      rw [if_neg (not_not.mpr h2)]
      by_cases h3 : config.server_name.isSome = true ∧ env.post_recv_ret ≠ 0
      · rw [if_pos h3]
        exact ⟨_, rfl, h3.2⟩
      rw [if_neg h3]
      by_cases h4 : env.rtr_ret = 0
      swap
      · rw [if_pos h4]
        exact ⟨_, rfl, h4⟩
      rw [if_neg (not_not.mpr h4)]
      by_cases h5 : env.rts_ret = 0
      swap
      · rw [if_pos h5]
        exact ⟨_, rfl, h5⟩
      rcases hfail with h | h | h
      · exact absurd h2 h
      · exact absurd h4 h
      · exact absurd h5 h

theorem connect_qp_rts_iff_witness :
    ex_res.qp_state = .RESET ∧
    (connect_qp .little_endian ex_config ex_env 1 ex_res).map
      (fun r => (r.res.qp_state, transitions r.trace)) =
      some (.RTS, [(.INIT, 0), (.RTR, 0), (.RTS, 0)]) ∧
    (connect_qp .little_endian ex_config { ex_env with rtr_ret := 22 } 1 ex_res).map
      (fun r => (r.rc, r.res.qp_state, transitions r.trace)) =
      some (22, .INIT, [(.INIT, 0), (.RTR, 22)]) ∧
    ((connect_qp .little_endian ex_config ex_env 1 ex_res).get (by decide)).res.qp_state = .RTS ∧
    (∃ r, connect_qp .little_endian ex_config { ex_env with rtr_ret := 22 } 1 ex_res = some r ∧
      r.rc ≠ 0) :=
  ⟨rfl, by decide, by decide,
    (((connect_qp_rts_iff .little_endian ex_config ex_env 1 ex_res rfl).1
      ((connect_qp .little_endian ex_config ex_env 1 ex_res).get (by decide)) (by simp)).1).2
      (by decide),
    (connect_qp_rts_iff .little_endian ex_config { ex_env with rtr_ret := 22 } 1 ex_res rfl).2
      (by decide) (Or.inr (Or.inl (by decide)))⟩

/-- C8: in every run of `connect_qp` that returns, with a server host name configured a call of
`modify_qp_to_rtr` is preceded by exactly the calls INIT (returning 0) and one receive post
(returning 0), in this order, and no receive is posted after it; with no server host name
configured no receive is posted at all. -/
theorem connect_qp_receive_order (bo : byte_order) (config : config_t) (env : connect_env)
    (fuel : Nat) (res : resources) (r : connect_result)
    (h : connect_qp bo config env fuel res = some r) :
    (config.server_name.isSome = true → (∃ ret, qp_call.modify .RTR ret ∈ qp_calls r.trace) →
      ∃ ret rest, qp_calls r.trace =
          [.modify .INIT 0, .recv 0, .modify .RTR ret] ++ rest ∧
        ∀ c ∈ rest, ∃ ret', c = .modify .RTS ret') ∧
    (config.server_name.isSome = false → ∀ ret, qp_call.recv ret ∉ qp_calls r.trace) := by
  rcases connect_qp_shape bo config env fuel res r h with
    ⟨_, _, _, _, _, hq⟩ | ⟨s1, _, _, hc⟩
  · simp [hq]
  · rcases hc with ⟨_, _, _, _, hq⟩ | ⟨_, _, _, _, _, hq⟩ | ⟨_, _, hsrv, _, _, _, _, hq⟩ |
      ⟨_, _, _, _, _, _, hq⟩ | ⟨_, _, _, _, _, _, _, hq⟩ | ⟨s2, _, _, _, _, _, _, _, _, hq⟩
    · simp [hq]
    · simp [hq]
    · simp [hq, hsrv]
    · by_cases hsrv : config.server_name.isSome = true
      · exact ⟨fun _ _ => ⟨env.rtr_ret, [], by simp [hq, hsrv], by simp⟩, by simp [hsrv]⟩
      · simp [hq, hsrv]
    · by_cases hsrv : config.server_name.isSome = true
      · exact ⟨fun _ _ => ⟨0, [.modify .RTS env.rts_ret], by simp [hq, hsrv], by simp⟩,
          by simp [hsrv]⟩
      · simp [hq, hsrv]
    · by_cases hsrv : config.server_name.isSome = true
      · exact ⟨fun _ _ => ⟨0, [.modify .RTS 0], by simp [hq, hsrv], by simp⟩, by simp [hsrv]⟩
      · simp [hq, hsrv]

theorem connect_qp_receive_order_witness :
    (connect_qp .little_endian ex_config ex_env 1 ex_res).map (fun r => qp_calls r.trace) =
      some [.modify .INIT 0, .recv 0, .modify .RTR 0, .modify .RTS 0] ∧
    (∃ ret rest,
      qp_calls ((connect_qp .little_endian ex_config ex_env 1 ex_res).get (by decide)).trace =
          [.modify .INIT 0, .recv 0, .modify .RTR ret] ++ rest ∧
        ∀ c ∈ rest, ∃ ret', c = .modify .RTS ret') ∧
    qp_call.recv 0 ∉ qp_calls
      ((connect_qp .little_endian { ex_config with server_name := none } ex_env 1 ex_res).get
        (by decide)).trace :=
  ⟨by decide,
    (connect_qp_receive_order .little_endian ex_config ex_env 1 ex_res _ (by simp)).1 rfl
      ⟨0, by decide⟩,
    (connect_qp_receive_order .little_endian { ex_config with server_name := none } ex_env 1
      ex_res _ (by simp)).2 rfl 0⟩

theorem msec_lt (t : timeval) : msec t < 2 ^ 64 := by
  unfold msec
  have h := Int.emod_lt_of_pos (t.tv_sec * 1000 + Int.tdiv t.tv_usec 1000)
    (show (0 : Int) < 2 ^ 64 by norm_num)
  have h0 := Int.emod_nonneg (t.tv_sec * 1000 + Int.tdiv t.tv_usec 1000)
    (show (2 ^ 64 : Int) ≠ 0 by norm_num)
  omega

theorem elapsed_eq (cur start : Nat) (hle : start ≤ cur) (hcur : cur < 2 ^ 64) :
    elapsed cur start = cur - start := by
  unfold elapsed
  have hs : start % 2 ^ 64 = start := Nat.mod_eq_of_lt (by omega)
  rw [hs]
  have : cur + 2 ^ 64 - start = (cur - start) + 2 ^ 64 := by omega
  rw [this, Nat.add_mod_right, Nat.mod_eq_of_lt (by omega)]

theorem clock_start_le (env : poll_env)
    (hmono : ∀ i, msec (env.clock i) ≤ msec (env.clock (i + 1))) (i : Nat) :
    msec (env.clock 0) ≤ msec (env.clock i) := by
  induction i with
  | zero => exact le_refl _
  | succ i ih => exact le_trans ih (hmono i)

/-- A returned loop stopped at the first poll, from `j` on, at which its condition fails. -/
theorem poll_loop_sound (env : poll_env) (start : Nat) (fuel j k c : Nat)
    (h : poll_loop env start fuel j = some (k, c)) :
    j ≤ k ∧ c = msec (env.clock (k + 1)) ∧
    (∀ i, j ≤ i → i < k →
      (env.polls i).1 = 0 ∧ elapsed (msec (env.clock (i + 1))) start < MAX_POLL_CQ_TIMEOUT) ∧
    ¬ ((env.polls k).1 = 0 ∧ elapsed (msec (env.clock (k + 1))) start < MAX_POLL_CQ_TIMEOUT) := by
  induction fuel generalizing j with
  | zero => simp [poll_loop] at h
  | succ fuel ih =>
    unfold poll_loop at h
    simp only [] at h
    split at h
    · rename_i hc
      obtain ⟨h1, h2, h3, h4⟩ := ih (j + 1) h
      refine ⟨by omega, h2, fun i hji hik => ?_, h4⟩
      by_cases hij : i = j
      · subst hij
        exact hc
      · exact h3 i (by omega) hik
    · rename_i hc
      simp only [Option.some.injEq, Prod.mk.injEq] at h
      obtain ⟨rfl, rfl⟩ := h
      exact ⟨le_refl _, rfl, fun i hji hik => by omega, hc⟩

/-- The loop ends once its condition fails at some poll and the fuel reaches that poll. -/
theorem poll_loop_complete (env : poll_env) (start : Nat) (fuel j k : Nat) (hjk : j ≤ k)
    (hk : ¬ ((env.polls k).1 = 0 ∧
      elapsed (msec (env.clock (k + 1))) start < MAX_POLL_CQ_TIMEOUT))
    (hfuel : k - j < fuel) :
    ∃ k' c, poll_loop env start fuel j = some (k', c) ∧ k' ≤ k := by
  induction fuel generalizing j with
  | zero => omega
  | succ fuel ih =>
    unfold poll_loop
    simp only []
    split
    · rename_i hc
      have hne : j ≠ k := fun e => hk (e ▸ hc)
      exact ih (j + 1) (by omega) (by omega)
    · exact ⟨j, _, rfl, hjk⟩

/-- C9: under a non-decreasing clock, a run of `poll_completion` that returns made at least one
poll, every poll before the last returned zero completions with fewer than 20,000 ms elapsed
since the reading taken before the first poll, and the last poll did not (so the loop ran
exactly while that condition held); it returns 0 if and only if the last poll delivered a
completion with status success, and 1 when the last poll failed, when the completion has
another status, or when no completion was delivered, which happens only with at least
20,000 ms elapsed. And whenever the condition fails at some poll, `poll_completion` returns,
given fuel beyond that poll. -/
theorem poll_completion_spec (env : poll_env)
    (hmono : ∀ i, msec (env.clock i) ≤ msec (env.clock (i + 1))) :
    (∀ fuel o, poll_completion fuel env = some o →
      1 ≤ o.polls_done ∧
      (∀ i, i + 1 < o.polls_done →
        (env.polls i).1 = 0 ∧ msec (env.clock (i + 1)) - msec (env.clock 0) < 20000) ∧
      ¬ ((env.polls (o.polls_done - 1)).1 = 0 ∧
          msec (env.clock o.polls_done) - msec (env.clock 0) < 20000) ∧
      o.poll_result = (env.polls (o.polls_done - 1)).1 ∧
      o.wc = (env.polls (o.polls_done - 1)).2 ∧
      (o.rc = 0 ↔ 0 < o.poll_result ∧ o.wc.status = IBV_WC_SUCCESS) ∧
      (o.poll_result < 0 → o.rc = 1) ∧
      (0 < o.poll_result → o.wc.status ≠ IBV_WC_SUCCESS → o.rc = 1) ∧
      (o.poll_result = 0 →
        o.rc = 1 ∧ 20000 ≤ msec (env.clock o.polls_done) - msec (env.clock 0))) ∧
    (∀ k, ¬ ((env.polls k).1 = 0 ∧ msec (env.clock (k + 1)) - msec (env.clock 0) < 20000) →
      ∀ fuel, k < fuel → ∃ o, poll_completion fuel env = some o ∧ o.polls_done ≤ k + 1) := by
  have hel : ∀ i, elapsed (msec (env.clock (i + 1))) (msec (env.clock 0)) =
      msec (env.clock (i + 1)) - msec (env.clock 0) := fun i =>
    elapsed_eq _ _ (clock_start_le env hmono (i + 1)) (msec_lt _)
  constructor
  · intro fuel o h
    unfold poll_completion at h
    simp only [] at h
    cases hl : poll_loop env (msec (env.clock 0)) fuel 0 with
    | none => simp [hl] at h
    | some p =>
      obtain ⟨k, c⟩ := p
      simp only [hl, Option.some.injEq] at h
      obtain ⟨_, hc, hcont, hstop⟩ := poll_loop_sound env _ fuel 0 k c hl
      subst h
      simp only [hel, MAX_POLL_CQ_TIMEOUT] at hcont hstop
      simp only [Nat.add_sub_cancel]
      refine ⟨by omega, fun i hi => hcont i (Nat.zero_le _) (by omega), hstop, trivial, trivial,
        ?_, ?_, ?_, ?_⟩
      · constructor
        · intro h0
          by_cases h1 : (env.polls k).1 < 0
          · simp [h1] at h0
          by_cases h2 : (env.polls k).1 = 0
          · simp [h1, h2] at h0
          by_cases h3 : (env.polls k).2.status = IBV_WC_SUCCESS
          · exact ⟨by omega, h3⟩
          · simp [h1, h2, h3] at h0
        · rintro ⟨hp, hs⟩
          have h1 : ¬ (env.polls k).1 < 0 := by omega
          have h2 : ¬ (env.polls k).1 = 0 := by omega
          simp [h1, h2, hs]
      · intro h1
        simp [h1]
      · intro hp hs
        have h1 : ¬ (env.polls k).1 < 0 := by omega
        have h2 : ¬ (env.polls k).1 = 0 := by omega
        simp [h1, h2, hs]
      · intro h2
        refine ⟨by simp [h2], ?_⟩
        by_contra hlt
        exact hstop ⟨h2, by omega⟩
  · intro k hk fuel hfuel
    have hk' : ¬ ((env.polls k).1 = 0 ∧
        elapsed (msec (env.clock (k + 1))) (msec (env.clock 0)) < MAX_POLL_CQ_TIMEOUT) := by
      simpa only [hel, MAX_POLL_CQ_TIMEOUT] using hk
    obtain ⟨k', c, hl, hle⟩ :=
      poll_loop_complete env (msec (env.clock 0)) fuel 0 k (Nat.zero_le _) hk' (by omega)
    unfold poll_completion
    simp only [hl]
    exact ⟨_, rfl, by simpa using hle⟩

theorem ex_clock_mono (i : Nat) : msec (ex_clock i) ≤ msec (ex_clock (i + 1)) := by
  rcases i with _ | _ | i
  · decide
  · decide
  · exact le_refl _

theorem poll_completion_spec_witness :
    msec (ex_poll_env.clock 0) ≤ msec (ex_poll_env.clock 1) ∧
    msec (ex_poll_env.clock 1) ≤ msec (ex_poll_env.clock 2) ∧
    poll_completion 3 ex_poll_env =
      some { rc := 0, polls_done := 3, poll_result := 1,
             wc := { status := IBV_WC_SUCCESS, vendor_err := 0 }, cur_time_msec := 101250 } ∧
    (poll_completion 5 ex_timeout_env).map (fun o => (o.rc, o.polls_done, o.cur_time_msec)) =
      some (1, 1, 125000) ∧
    ((0 : Int) = 0 ↔ (0 : Int) < 1 ∧ IBV_WC_SUCCESS = IBV_WC_SUCCESS) :=
  ⟨by decide, by decide, by decide, by decide,
    ((poll_completion_spec ex_poll_env ex_clock_mono).1 3
      { rc := 0, polls_done := 3, poll_result := 1,
        wc := { status := IBV_WC_SUCCESS, vendor_err := 0 }, cur_time_msec := 101250 }
      (by decide)).2.2.2.2.2.1⟩

/-- One release statement appends its call when the handle is held and keeps the flag equal
to "some release call so far failed". -/
theorem release_step_spec (held : Bool) (call : event) (ret : Int) (s : Int × List event)
    (hcall : call.failed = decide (ret ≠ 0))
    (hs : s.1 = if s.2.any event.failed then 1 else 0) :
    (release_step held call ret s).2 = s.2 ++ (if held then [call] else []) ∧
    (release_step held call ret s).1 =
      if (release_step held call ret s).2.any event.failed then 1 else 0 := by
  unfold release_step
  cases held
  · simp [hs]
  · by_cases hr : ret = 0
    · simp [hs, hcall, hr]
    · simp [hcall, hr]

theorem free_step_spec (buf : Nat) (s : Int × List event)
    (hs : s.1 = if s.2.any event.failed then 1 else 0) :
    (free_step buf s).2 = s.2 ++ (if buf ≠ 0 then [.free buf] else []) ∧
    (free_step buf s).1 = if (free_step buf s).2.any event.failed then 1 else 0 := by
  unfold free_step
  by_cases hb : buf = 0
  · simp [hs, hb]
  · simp [hs, hb, event.failed]

/-- C10: `resources_destroy` makes one release call for every handle the record holds, in the
order queue pair, memory region, buffer, completion queue, protection domain, device context,
channel, whatever the earlier calls returned, and none for a handle the record does not hold;
it returns 1 if one of the release calls it made returned non-zero and 0 otherwise. -/
theorem resources_destroy_spec (env : destroy_env) (res : resources) :
    (resources_destroy env res).2 =
      (if res.qp ≠ 0 then [.destroy_qp res.qp env.destroy_qp_ret] else []) ++
      (if res.mr ≠ 0 then [.dereg_mr res.mr env.dereg_mr_ret] else []) ++
      (if res.buf ≠ 0 then [.free res.buf] else []) ++
      (if res.cq ≠ 0 then [.destroy_cq res.cq env.destroy_cq_ret] else []) ++
      (if res.pd ≠ 0 then [.dealloc_pd res.pd env.dealloc_pd_ret] else []) ++
      (if res.ib_ctx ≠ 0 then [.close_device res.ib_ctx env.close_device_ret] else []) ++
      (if res.sock ≥ 0 then [.close res.sock env.close_ret] else []) ∧
    (resources_destroy env res).1 =
      (if (resources_destroy env res).2.any event.failed then 1 else 0) := by
  unfold resources_destroy
  simp only []
  have h0 : ((0 : Int), ([] : List event)).1 =
      if ((0 : Int), ([] : List event)).2.any event.failed then 1 else 0 := by simp
  obtain ⟨t1, i1⟩ := release_step_spec (decide (res.qp ≠ 0))
    (.destroy_qp res.qp env.destroy_qp_ret) env.destroy_qp_ret _ (by simp [event.failed]) h0
  obtain ⟨t2, i2⟩ := release_step_spec (decide (res.mr ≠ 0))
    (.dereg_mr res.mr env.dereg_mr_ret) env.dereg_mr_ret _ (by simp [event.failed]) i1
  obtain ⟨t3, i3⟩ := free_step_spec res.buf _ i2
  obtain ⟨t4, i4⟩ := release_step_spec (decide (res.cq ≠ 0))
    (.destroy_cq res.cq env.destroy_cq_ret) env.destroy_cq_ret _ (by simp [event.failed]) i3
  obtain ⟨t5, i5⟩ := release_step_spec (decide (res.pd ≠ 0))
    (.dealloc_pd res.pd env.dealloc_pd_ret) env.dealloc_pd_ret _ (by simp [event.failed]) i4
  obtain ⟨t6, i6⟩ := release_step_spec (decide (res.ib_ctx ≠ 0))
    (.close_device res.ib_ctx env.close_device_ret) env.close_device_ret _
    (by simp [event.failed]) i5
  obtain ⟨t7, i7⟩ := release_step_spec (decide (res.sock ≥ 0))
    (.close res.sock env.close_ret) env.close_ret _ (by simp [event.failed]) i6
  refine ⟨?_, i7⟩
  rw [t7, t6, t5, t4, t3, t2, t1]
  simp

/-- C11 (as stated, refuted): when the configured host name does not resolve, `getaddrinfo`
returns -2, `sock_connect` returns -2, and `resources_create` fails at the first step leaving
-2, not -1, in the socket member of the record. -/
theorem resources_create_socket_not_reset :
    (sock_connect ex_config.server_name ex_config.tcp_port ex_create_noname_env.sock).1 = -2 ∧
    (resources_create ex_config ex_create_noname_env (resources_init ex_res)).rc = -1 ∧
    (resources_create ex_config ex_create_noname_env (resources_init ex_res)).res.sock = -2 ∧
    ¬ (∀ (config : config_t) (env : create_env) (res0 : resources),
        (resources_create config env (resources_init res0)).rc ≠ 0 →
        (resources_create config env (resources_init res0)).res.sock = -1) := by
  refine ⟨by decide, by decide, by decide, fun hall => ?_⟩
  have h := hall ex_config ex_create_noname_env ex_res (by decide)
  revert h
  decide

/-- C11 (amended): starting from a record initialised by `resources_init`, a failure at any of
the nine construction steps makes `resources_create` return non-zero, perform no later step,
release what the earlier steps acquired exactly once in the reverse order of acquisition (the
channel last, the device list being freed right after the device is opened), and leave every
pointer of the record `NULL` and the socket negative: -1 after a failure at steps 2 to 9, the
negative value `sock_connect` returned after a failure at step 1. -/
theorem resources_create_failure (config : config_t) (env : create_env) (res0 : resources)
    (fd : Int) (S : List event) (r : create_state)
    (hsc : sock_connect config.server_name config.tcp_port env.sock = (fd, S))
    (hr : r = resources_create config env (resources_init res0)) :
    (fd < 0 → r.rc = -1 ∧ r.trace = S ∧ r.res.no_handles ∧ r.res.sock = fd) ∧
    (0 ≤ fd → env.dev_list = none →
      r.rc = 1 ∧ r.res.no_handles ∧ r.res.sock = -1 ∧
      r.trace = S ++ [.get_device_list none, .close fd env.release.close_ret]) ∧
    (0 ≤ fd → ∀ names, env.dev_list = some names →
      (find_device config.dev_name names 0).2 = none →
      r.rc = 1 ∧ r.res.no_handles ∧ r.res.sock = -1 ∧
      r.trace = S ++ [.get_device_list (some names), .free_device_list,
        .close fd env.release.close_ret]) ∧
    (0 ≤ fd → ∀ names dev, env.dev_list = some names →
      (find_device config.dev_name names 0).2 = some dev →
      (env.ib_ctx = 0 →
        r.rc = 1 ∧ r.res.no_handles ∧ r.res.sock = -1 ∧
        r.trace = S ++ [.get_device_list (some names), .open_device dev 0, .free_device_list,
          .close fd env.release.close_ret]) ∧
      (env.ib_ctx ≠ 0 → env.query_port_ret ≠ 0 →
        r.rc = 1 ∧ r.res.no_handles ∧ r.res.sock = -1 ∧
        r.trace = S ++ [.get_device_list (some names), .open_device dev env.ib_ctx, .free_device_list,
          .query_port env.ib_ctx config.ib_port env.query_port_ret,
          .close_device env.ib_ctx env.release.close_device_ret,
          .close fd env.release.close_ret]) ∧
      (env.ib_ctx ≠ 0 → env.query_port_ret = 0 → env.pd = 0 →
        r.rc = 1 ∧ r.res.no_handles ∧ r.res.sock = -1 ∧
        r.trace = S ++ [.get_device_list (some names), .open_device dev env.ib_ctx, .free_device_list,
          .query_port env.ib_ctx config.ib_port env.query_port_ret,
          .alloc_pd env.ib_ctx 0,
          .close_device env.ib_ctx env.release.close_device_ret,
          .close fd env.release.close_ret]) ∧
      (env.ib_ctx ≠ 0 → env.query_port_ret = 0 → env.pd ≠ 0 → env.cq = 0 →
        r.rc = 1 ∧ r.res.no_handles ∧ r.res.sock = -1 ∧
        r.trace = S ++ [.get_device_list (some names), .open_device dev env.ib_ctx, .free_device_list,
          .query_port env.ib_ctx config.ib_port env.query_port_ret,
          .alloc_pd env.ib_ctx env.pd, .create_cq env.ib_ctx 1 0,
          .dealloc_pd env.pd env.release.dealloc_pd_ret,
          .close_device env.ib_ctx env.release.close_device_ret,
          .close fd env.release.close_ret]) ∧
      (env.ib_ctx ≠ 0 → env.query_port_ret = 0 → env.pd ≠ 0 → env.cq ≠ 0 → env.buf = 0 →
        r.rc = 1 ∧ r.res.no_handles ∧ r.res.sock = -1 ∧
        r.trace = S ++ [.get_device_list (some names), .open_device dev env.ib_ctx, .free_device_list,
          .query_port env.ib_ctx config.ib_port env.query_port_ret,
          .alloc_pd env.ib_ctx env.pd, .create_cq env.ib_ctx 1 env.cq, .malloc MSG_SIZE 0,
          .destroy_cq env.cq env.release.destroy_cq_ret,
          .dealloc_pd env.pd env.release.dealloc_pd_ret,
          .close_device env.ib_ctx env.release.close_device_ret,
          .close fd env.release.close_ret]) ∧
      (env.ib_ctx ≠ 0 → env.query_port_ret = 0 → env.pd ≠ 0 → env.cq ≠ 0 → env.buf ≠ 0 →
        env.mr = 0 →
        r.rc = 1 ∧ r.res.no_handles ∧ r.res.sock = -1 ∧
        r.trace = S ++ [.get_device_list (some names), .open_device dev env.ib_ctx, .free_device_list,
          .query_port env.ib_ctx config.ib_port env.query_port_ret,
          .alloc_pd env.ib_ctx env.pd, .create_cq env.ib_ctx 1 env.cq,
          .malloc MSG_SIZE env.buf,
          .reg_mr env.pd env.buf MSG_SIZE
            (IBV_ACCESS_LOCAL_WRITE ||| IBV_ACCESS_REMOTE_READ ||| IBV_ACCESS_REMOTE_WRITE) 0,
          .free env.buf,
          .destroy_cq env.cq env.release.destroy_cq_ret,
          .dealloc_pd env.pd env.release.dealloc_pd_ret,
          .close_device env.ib_ctx env.release.close_device_ret,
          .close fd env.release.close_ret]) ∧
      (env.ib_ctx ≠ 0 → env.query_port_ret = 0 → env.pd ≠ 0 → env.cq ≠ 0 → env.buf ≠ 0 →
        env.mr ≠ 0 → env.qp = 0 →
        r.rc = 1 ∧ r.res.no_handles ∧ r.res.sock = -1 ∧
        r.trace = S ++ [.get_device_list (some names), .open_device dev env.ib_ctx, .free_device_list,
          .query_port env.ib_ctx config.ib_port env.query_port_ret,
          .alloc_pd env.ib_ctx env.pd, .create_cq env.ib_ctx 1 env.cq,
          .malloc MSG_SIZE env.buf,
          .reg_mr env.pd env.buf MSG_SIZE
            (IBV_ACCESS_LOCAL_WRITE ||| IBV_ACCESS_REMOTE_READ ||| IBV_ACCESS_REMOTE_WRITE)
            env.mr,
          .create_qp env.pd
            { qp_type := IBV_QPT_RC, sq_sig_all := 1, send_cq := env.cq, recv_cq := env.cq,
              max_send_wr := 10, max_recv_wr := 10, max_send_sge := 10, max_recv_sge := 10 } 0,
          .dereg_mr env.mr env.release.dereg_mr_ret,
          .free env.buf,
          .destroy_cq env.cq env.release.destroy_cq_ret,
          .dealloc_pd env.pd env.release.dealloc_pd_ret,
          .close_device env.ib_ctx env.release.close_device_ret,
          .close fd env.release.close_ret])) := by
  subst hr
  have hfd : (sock_connect config.server_name (config.tcp_port : Int) env.sock).1 = fd := by
    rw [hsc]
  have hS : (sock_connect config.server_name (config.tcp_port : Int) env.sock).2 = S := by
    rw [hsc]
  refine ⟨?_, ?_, ?_, ?_⟩
  · intro h
    have h0 : ¬ 0 ≤ fd := by omega
    simp [resources_create, resources_create_steps, resources_create_exit, resources_init,
      resources.no_handles, hfd, hS, h, h0]
  · intro h hd
    have h0 : ¬ fd < 0 := by omega
    simp [resources_create, resources_create_steps, resources_create_exit, resources_init,
      resources.no_handles, hfd, hS, h, h0, hd]
  · intro h names hd hf
    have h0 : ¬ fd < 0 := by omega
    by_cases hn : names = []
    · simp [resources_create, resources_create_steps, resources_create_exit, resources_init,
        resources.no_handles, hfd, hS, h, h0, hd, hn]
    · simp [resources_create, resources_create_steps, resources_create_exit, resources_init,
        resources.no_handles, hfd, hS, h, h0, hd, hf, hn]
  · intro h names dev hd hf
    have h0 : ¬ fd < 0 := by omega
    have hn : names ≠ [] := by
      rintro rfl
      simp [find_device] at hf
    refine ⟨?_, ?_, ?_, ?_, ?_, ?_, ?_⟩
    · intro h1
      simp [resources_create, resources_create_steps, resources_create_exit, resources_init,
        resources.no_handles, hfd, hS, h, h0, hd, hf, hn, h1]
    · intro h1 h2
      simp [resources_create, resources_create_steps, resources_create_exit, resources_init,
        resources.no_handles, hfd, hS, h, h0, hd, hf, hn, h1, h2]
    · intro h1 h2 h3
      simp [resources_create, resources_create_steps, resources_create_exit, resources_init,
        resources.no_handles, hfd, hS, h, h0, hd, hf, hn, h1, h2, h3]
    · intro h1 h2 h3 h4
      simp [resources_create, resources_create_steps, resources_create_exit, resources_init,
        resources.no_handles, hfd, hS, h, h0, hd, hf, hn, h1, h2, h3, h4]
    · intro h1 h2 h3 h4 h5
      simp [resources_create, resources_create_steps, resources_create_exit, resources_init,
        resources.no_handles, hfd, hS, h, h0, hd, hf, hn, h1, h2, h3, h4, h5]
    · intro h1 h2 h3 h4 h5 h6
      simp [resources_create, resources_create_steps, resources_create_exit, resources_init,
        resources.no_handles, hfd, hS, h, h0, hd, hf, hn, h1, h2, h3, h4, h5, h6]
    · intro h1 h2 h3 h4 h5 h6 h7
      simp [resources_create, resources_create_steps, resources_create_exit, resources_init,
        resources.no_handles, hfd, hS, h, h0, hd, hf, hn, h1, h2, h3, h4, h5, h6, h7]

theorem resources_create_failure_witness :
    sock_connect ex_config.server_name ex_config.tcp_port ex_create_mr_fails_env.sock =
      (3, [.getaddrinfo (some "10.0.0.1") 19875 0, .socket 3, .connect 3 0, .freeaddrinfo]) ∧
    (find_device ex_config.dev_name ["mlx5_0", "mlx5_1"] 0).2 = some 0 ∧
    ((resources_create ex_config ex_create_mr_fails_env (resources_init ex_res)).rc = 1 ∧
      (resources_create ex_config ex_create_mr_fails_env (resources_init ex_res)).res.no_handles ∧
      (resources_create ex_config ex_create_mr_fails_env (resources_init ex_res)).res.sock = -1) ∧
    (resources_create ex_config ex_create_mr_fails_env (resources_init ex_res)).trace =
      [.getaddrinfo (some "10.0.0.1") 19875 0, .socket 3, .connect 3 0, .freeaddrinfo,
        .get_device_list (some ["mlx5_0", "mlx5_1"]), .open_device 0 0x100, .free_device_list,
        .query_port 0x100 1 0, .alloc_pd 0x100 0x200, .create_cq 0x100 1 0x300,
        .malloc 10485760 0x7f0000001000, .reg_mr 0x200 0x7f0000001000 10485760 7 0,
        .free 0x7f0000001000, .destroy_cq 0x300 0, .dealloc_pd 0x200 0, .close_device 0x100 0,
        .close 3 0] ∧
    (resources_create ex_config ex_create_noname_env (resources_init ex_res)).res.sock = -2 :=
  have h := ((resources_create_failure ex_config ex_create_mr_fails_env ex_res 3 _ _ rfl
    rfl).2.2.2 (by decide) ["mlx5_0", "mlx5_1"] 0 rfl rfl).2.2.2.2.2.1 (by decide) rfl
    (by decide) (by decide) (by decide) rfl
  ⟨rfl, rfl, ⟨h.1, h.2.1, h.2.2.1⟩, by decide,
    ((resources_create_failure ex_config ex_create_noname_env ex_res (-2) _ _ rfl rfl).1
      (by decide)).2.2.2⟩

/-- C12 (evaluation at the failing input): the host name resolves to two addresses and every
socket call succeeds. In connect role `sock_connect` connects to both, on descriptors 3 and 4,
and returns 4 with both descriptors open. In listen role it binds two listeners and accepts two
connections, returns the second, 6, and leaves the first listener 3 and the first connection 5
open. When the `socket` call for the second address fails instead, `sock_connect` returns -1
although the connection on descriptor 3 is established and stays open. -/
theorem sock_connect_two_addresses :
    sock_connect (some "10.0.0.1") 19875 ex_two_addr_env =
      (4, [.getaddrinfo (some "10.0.0.1") 19875 0, .socket 3, .connect 3 0, .socket 4,
        .connect 4 0, .freeaddrinfo]) ∧
    connections (sock_connect (some "10.0.0.1") 19875 ex_two_addr_env).2 = 2 ∧
    open_fds (sock_connect (some "10.0.0.1") 19875 ex_two_addr_env).2 = [3, 4] ∧
    sock_connect none 19875 ex_two_addr_env =
      (6, [.getaddrinfo none 19875 0, .socket 3, .bind 3 0, .listen 3 0, .accept 3 5,
        .socket 4, .bind 4 0, .listen 4 0, .accept 4 6, .close 4 0, .freeaddrinfo]) ∧
    connections (sock_connect none 19875 ex_two_addr_env).2 = 2 ∧
    open_fds (sock_connect none 19875 ex_two_addr_env).2 = [3, 5, 6] ∧
    (sock_connect (some "10.0.0.1") 19875 ex_second_socket_fails_env).1 = -1 ∧
    connections (sock_connect (some "10.0.0.1") 19875 ex_second_socket_fails_env).2 = 1 ∧
    open_fds (sock_connect (some "10.0.0.1") 19875 ex_second_socket_fails_env).2 = [3] := by
  refine ⟨by decide, by decide, by decide, by decide, by decide, by decide, by decide,
    by decide, by decide⟩

/-- C13 (as stated, refuted): the port and the source GID index of the address handle are
8-bit members. With the port configured as 257 and no GID index, the address handle
`modify_qp_to_rtr` passes has port 1, not 257; with the GID index configured as 256 it has
source GID index 0, not 256. -/
theorem modify_qp_to_rtr_narrows :
    (rtr_attr ex_port_257_config ex_con_data.qp_num ex_con_data.lid
      ex_con_data.gid).ah_attr.port_num = 1 ∧
    (rtr_attr ex_gid_256_config ex_con_data.qp_num ex_con_data.lid
      ex_con_data.gid).ah_attr.grh.sgid_index = 0 ∧
    ¬ (∀ (config : config_t) (remote_qpn dlid : Nat) (dgid : List Nat), dgid.length = 16 →
        config.gid_idx < 0 →
        (rtr_attr config remote_qpn dlid dgid).ah_attr.port_num = config.ib_port) ∧
    ¬ (∀ (config : config_t) (remote_qpn dlid : Nat) (dgid : List Nat), dgid.length = 16 →
        config.gid_idx ≥ 0 →
        (rtr_attr config remote_qpn dlid dgid).ah_attr.grh.sgid_index = config.gid_idx) := by
  refine ⟨by decide, by decide, fun hall => ?_, fun hall => ?_⟩
  · have h := hall ex_port_257_config ex_con_data.qp_num ex_con_data.lid ex_con_data.gid rfl
      (by decide)
    revert h
    decide
  · have h := hall ex_gid_256_config ex_con_data.qp_num ex_con_data.lid ex_con_data.gid rfl
      (by decide)
    revert h
    decide

/-- C13 (amended): for every peer qp_num, lid and 16-byte gid, every configured port and every
GID index, the call `modify_qp_to_rtr` makes carries state RTR, path MTU 256, the peer's qp_num
as destination, receive PSN 0, max destination RD-atomic 1, min RNR timer 0x12, service level
0, source path bits 0 and the peer's lid as destination LID, with the mask state | address
vector | path MTU | destination QPN | receive PSN | max destination RD-atomic | min RNR timer.
With a non-negative GID index the address handle is global, with the peer's gid, flow label 0,
hop limit 1, traffic class 0, port 1 whatever the configured port, and as source GID index the
configured index converted to 8 bits (modulo 256), which is the index itself when it is below
256. With a negative GID index it is not global and its port is the configured port converted
to 8 bits (modulo 256), which is the port itself when it lies in 0..255. The function returns
what the provider returned. -/
theorem modify_qp_to_rtr_spec (config : config_t) (qp : Nat) (st : ibv_qp_state)
    (remote_qpn dlid : Nat) (dgid : List Nat) (ret : Int) (hgid : dgid.length = 16) :
    (modify_qp_to_rtr config qp st remote_qpn dlid dgid ret).call =
      .modify_qp qp (rtr_attr config remote_qpn dlid dgid)
        (IBV_QP_STATE ||| IBV_QP_AV ||| IBV_QP_PATH_MTU ||| IBV_QP_DEST_QPN |||
          IBV_QP_RQ_PSN ||| IBV_QP_MAX_DEST_RD_ATOMIC ||| IBV_QP_MIN_RNR_TIMER) ret ∧
    (modify_qp_to_rtr config qp st remote_qpn dlid dgid ret).rc = ret ∧
    (rtr_attr config remote_qpn dlid dgid).qp_state = .RTR ∧
    (rtr_attr config remote_qpn dlid dgid).path_mtu = IBV_MTU_256 ∧
    (rtr_attr config remote_qpn dlid dgid).dest_qp_num = remote_qpn ∧
    (rtr_attr config remote_qpn dlid dgid).rq_psn = 0 ∧
    (rtr_attr config remote_qpn dlid dgid).max_dest_rd_atomic = 1 ∧
    (rtr_attr config remote_qpn dlid dgid).min_rnr_timer = 0x12 ∧
    (rtr_attr config remote_qpn dlid dgid).ah_attr.sl = 0 ∧
    (rtr_attr config remote_qpn dlid dgid).ah_attr.src_path_bits = 0 ∧
    (rtr_attr config remote_qpn dlid dgid).ah_attr.dlid = dlid ∧
    (config.gid_idx ≥ 0 →
      (rtr_attr config remote_qpn dlid dgid).ah_attr.is_global = 1 ∧
      (rtr_attr config remote_qpn dlid dgid).ah_attr.grh.dgid = dgid ∧
      (rtr_attr config remote_qpn dlid dgid).ah_attr.grh.flow_label = 0 ∧
      (rtr_attr config remote_qpn dlid dgid).ah_attr.grh.hop_limit = 1 ∧
      (rtr_attr config remote_qpn dlid dgid).ah_attr.grh.sgid_index = config.gid_idx % 256 ∧
      (config.gid_idx < 256 →
        (rtr_attr config remote_qpn dlid dgid).ah_attr.grh.sgid_index = config.gid_idx) ∧
      (rtr_attr config remote_qpn dlid dgid).ah_attr.grh.traffic_class = 0 ∧
      (rtr_attr config remote_qpn dlid dgid).ah_attr.port_num = 1) ∧
    (config.gid_idx < 0 →
      (rtr_attr config remote_qpn dlid dgid).ah_attr.is_global = 0 ∧
      (rtr_attr config remote_qpn dlid dgid).ah_attr.port_num = config.ib_port % 256 ∧
      (0 ≤ config.ib_port → config.ib_port < 256 →
        (rtr_attr config remote_qpn dlid dgid).ah_attr.port_num = config.ib_port)) := by
  have hd : dgid.take 16 = dgid := List.take_of_length_le (Nat.le_of_eq hgid)
  refine ⟨rfl, rfl, ?_⟩
  by_cases hg : config.gid_idx ≥ 0
  · have hn : ¬ config.gid_idx < 0 := by omega
    simp only [rtr_attr, hg, hn, hd, ibv_qp_attr.zero, to_uint8, if_true, true_and,
      false_imp_iff, and_true, true_imp_iff]
    intro h
    omega
  · have hn : config.gid_idx < 0 := by omega
    simp only [rtr_attr, hg, hn, ibv_qp_attr.zero, to_uint8, if_false, true_and,
      false_imp_iff, and_true, true_imp_iff]
    intro h0 h1
    omega

theorem modify_qp_to_rtr_spec_witness :
    ex_con_data.gid.length = 16 ∧
    (0 : Int) ≤ ex_config.gid_idx ∧
    (rtr_attr ex_config ex_con_data.qp_num ex_con_data.lid ex_con_data.gid).ah_attr =
      { grh := { dgid := ex_con_data.gid, flow_label := 0, sgid_index := 0, hop_limit := 1,
                 traffic_class := 0 },
        dlid := 0x99aa, sl := 0, src_path_bits := 0, is_global := 1, port_num := 1 } ∧
    (rtr_attr { ex_config with ib_port := 2, gid_idx := -1 } ex_con_data.qp_num ex_con_data.lid
        ex_con_data.gid).ah_attr.port_num = 2 ∧
    (rtr_attr ex_config ex_con_data.qp_num ex_con_data.lid ex_con_data.gid).ah_attr.grh.dgid =
      ex_con_data.gid ∧
    (rtr_attr ex_config ex_con_data.qp_num ex_con_data.lid
      ex_con_data.gid).ah_attr.grh.sgid_index = ex_config.gid_idx ∧
    (rtr_attr ex_port_257_config ex_con_data.qp_num ex_con_data.lid
      ex_con_data.gid).ah_attr.port_num = ex_port_257_config.ib_port % 256 :=
  ⟨rfl, by decide, by decide, by decide,
    ((modify_qp_to_rtr_spec ex_config 0x400 .INIT ex_con_data.qp_num ex_con_data.lid
      ex_con_data.gid 0 rfl).2.2.2.2.2.2.2.2.2.2.2.1 (by decide)).2.1,
    ((modify_qp_to_rtr_spec ex_config 0x400 .INIT ex_con_data.qp_num ex_con_data.lid
      ex_con_data.gid 0 rfl).2.2.2.2.2.2.2.2.2.2.2.1 (by decide)).2.2.2.2.2.1 (by decide),
    ((modify_qp_to_rtr_spec ex_port_257_config 0x400 .INIT ex_con_data.qp_num ex_con_data.lid
      ex_con_data.gid 0 rfl).2.2.2.2.2.2.2.2.2.2.2.2 (by decide)).2.1⟩

/-- C14: for every resource record, opcode and provider result, `post_send` hands the provider
one work request with id 0, the signaled flag, and one scatter-gather entry made of the buffer
address, the length `MSG_SIZE` = 10,485,760 and the local key of the memory region; for
RDMA_READ and RDMA_WRITE the remote address and key are those of the remote connection record,
for SEND both are zero; and `post_send` returns the provider's result. -/
theorem post_send_spec (res : resources) (opcode : Int) (ret : Int) :
    post_send res opcode ret = (ret, .post_send res.qp (send_wr res opcode) ret) ∧
    (send_wr res opcode).wr_id = 0 ∧
    (send_wr res opcode).send_flags = IBV_SEND_SIGNALED ∧
    (send_wr res opcode).opcode = opcode ∧
    (send_wr res opcode).num_sge = 1 ∧
    (send_wr res opcode).sg_list =
      [{ addr := res.buf, length := MSG_SIZE, lkey := res.mr_lkey }] ∧
    MSG_SIZE = 10485760 ∧
    (opcode = IBV_WR_RDMA_READ ∨ opcode = IBV_WR_RDMA_WRITE →
      (send_wr res opcode).remote_addr = res.remote_props.addr ∧
      (send_wr res opcode).rkey = res.remote_props.rkey) ∧
    (opcode = IBV_WR_SEND →
      (send_wr res opcode).remote_addr = 0 ∧ (send_wr res opcode).rkey = 0) := by
  refine ⟨rfl, ?_, ?_, ?_, ?_, ?_, rfl, ?_, ?_⟩
  · unfold send_wr
    split <;> rfl
  · unfold send_wr
    split <;> rfl
  · unfold send_wr
    split <;> rfl
  · unfold send_wr
    split <;> rfl
  · unfold send_wr
    split <;> rfl
  · intro h
    have ho : opcode ≠ IBV_WR_SEND := by
      rcases h with h | h <;> rw [h] <;> decide
    simp [send_wr, ho]
  · intro h
    simp [send_wr, h]

theorem post_send_spec_witness :
    post_send ex_connected_res IBV_WR_RDMA_READ 0 =
      (0, .post_send 0x400
        { wr_id := 0, sg_list := [{ addr := 0x7f0000001000, length := 10485760, lkey := 0x21 }],
          num_sge := 1, opcode := 4, send_flags := 2, remote_addr := 0x0102030405060708,
          rkey := 0x11223344 } 0) ∧
    post_send ex_connected_res IBV_WR_SEND 0 =
      (0, .post_send 0x400
        { wr_id := 0, sg_list := [{ addr := 0x7f0000001000, length := 10485760, lkey := 0x21 }],
          num_sge := 1, opcode := 2, send_flags := 2, remote_addr := 0, rkey := 0 } 0) ∧
    ((send_wr ex_connected_res IBV_WR_RDMA_READ).remote_addr = ex_connected_res.remote_props.addr ∧
      (send_wr ex_connected_res IBV_WR_RDMA_READ).rkey = ex_connected_res.remote_props.rkey) ∧
    ((send_wr ex_connected_res IBV_WR_SEND).remote_addr = 0 ∧
      (send_wr ex_connected_res IBV_WR_SEND).rkey = 0) :=
  ⟨by decide, by decide,
    (post_send_spec ex_connected_res IBV_WR_RDMA_READ 0).2.2.2.2.2.2.2.1 (Or.inl rfl),
    (post_send_spec ex_connected_res IBV_WR_SEND 0).2.2.2.2.2.2.2.2 rfl⟩

end Rdma
